import Mathlib

/-!
Verification of the PacketSimulator trajectory-reconstruction engine.

This file gives a shallow embedding of the clustering core of the
repository (`src2/estimator`), faithful to the Python source:

* `src2/shared/domain/detector.py`                 → `Detector`
* `src2/estimator/domain/detection_record.py`      → `DetectionRecord`
* `src2/estimator/domain/cluster_state.py`         → `ClusterState`, `ClusterState.add_record`
* `src2/estimator/domain/clustering_config.py`     → `ClusteringConfig`
* `src2/estimator/domain/record_action.py`         → `RecordAction`, `ForwardSearchAction`
* `src2/shared/utils/distance_calculator.py`       → `calculate_euclidean_distance`,
                                                     `calculate_min_travel_time`
* `src2/estimator/usecase/clustering_utils.py`     → `MAX_STAY_DURATION`, `is_sequence_anomaly`
* `src2/estimator/usecase/clustering.py`           → `judgeCandidateRecord`,
                                                     `evaluateScanRecord`, `forwardSearch`,
                                                     `clusterOneGroup`, `clusterRecords`,
                                                     `createEstimatedStays`
* `src2/estimator/usecase/estimate_trajectories.py`→ `estimateTrajectories`

Modelling conventions:

* Timestamps are rationals (seconds); Python compares `datetime` differences
  through `.total_seconds()`, so only the difference in seconds matters.
* Coordinates, speeds and factors are rationals.
* Python's `dict` becomes an association list preserving insertion order;
  a `KeyError` (missing detector id) becomes `Option.none` propagated
  outwards, so a run that returns `some _` is a run that raised nothing.
* The feasibility comparison `time_diff < min_travel_time * impossible_factor`
  involves `math.sqrt`.  The pipeline uses the decidable rational reflection
  `impossibleMove`; the theorem `impossibleMove_iff` proves it equivalent to
  the real-valued comparison against `calculate_min_travel_time` (which uses
  `Real.sqrt`), for the nonnegative `impossible_factor` the configuration
  contract (`spec §6: impossible_factor ∈ (0,1]`) guarantees.
* Python `while` loops over a scan index become fuel-based structural
  recursions; the fuel is the number of remaining list positions, which the
  source loop never exceeds because its scan index strictly increases.
* Record mutation (`is_judged`, `cluster_id`) is explicit state passing: a
  group's record list is threaded through every function that mutates it.
-/

/- The Batteries rational arithmetic operations are `@[irreducible]`; making
them semireducible again lets `decide` evaluate the engine on concrete
inputs (the kernel ignores reducibility attributes, so proofs are unchanged). -/
attribute [local semireducible] Rat.sub Rat.add Rat.mul Rat.inv

/-- Embeds `Detector` (detector.py): identifier plus 2D coordinate. -/
structure Detector where
  id : String
  x : ℚ
  y : ℚ
deriving DecidableEq, Repr

/-- Embeds `DetectionRecord` (detection_record.py): timestamp (seconds),
ground-truth walker id (unused by the engine), payload hash, detector id,
cyclic sequence number, and the mutable `is_judged` / `cluster_id` pair. -/
structure DetectionRecord where
  timestamp : ℚ
  walker_id : String
  hashed_id : String
  detector_id : String
  sequence_number : ℤ
  is_judged : Bool := false
  cluster_id : String := ""
deriving DecidableEq, Repr

/-- Embeds `RecordAction` (record_action.py): the main-loop verdict. -/
inductive RecordAction where
  | ADD_AS_STAY
  | ADD_AS_MOVE
  | FORWARD_SEARCH
deriving DecidableEq, Repr

/-- Embeds `ForwardSearchAction` (record_action.py): the forward-search verdict. -/
inductive ForwardSearchAction where
  | ADD_AND_CONTINUE
  | SKIP
  | FOUND
deriving DecidableEq, Repr

/-- Embeds `ClusterState` (cluster_state.py). -/
structure ClusterState where
  cluster_id : String
  cluster_records : List DetectionRecord
  route_sequence : List String
  prev_record : DetectionRecord
deriving DecidableEq, Repr

/-- Embeds `ClusteringConfig` (clustering_config.py); the detector registry
`Dict[str, Detector]` becomes an insertion-ordered association list. -/
structure ClusteringConfig where
  detectors : List (String × Detector)
  walker_speed : ℚ
  impossible_factor : ℚ
  allow_long_stays : Bool
deriving DecidableEq, Repr

/-- Embeds `EstimatedStay` (estimated_stay.py). -/
structure EstimatedStay where
  detector_id : String
  first_detection : ℚ
  last_detection : ℚ
  estimated_duration_seconds : ℚ
  num_detections : ℕ
deriving DecidableEq, Repr

/-- Embeds `EstimatedTrajectory` (estimated_trajectory.py).  Python stores the
route only as the joined string `route`; the field `route_seq` additionally
records the `route_sequence` list the string is joined from, so that route
well-formedness can be stated about the emitted trajectory itself. -/
structure EstimatedTrajectory where
  trajectory_id : String
  cluster_ids : List String
  route : String
  stays : List EstimatedStay
  route_seq : List String
deriving DecidableEq, Repr

/-- Embeds the Python dict lookup `config.detectors[det_id]`;
`none` models the `KeyError` raised on a missing detector id. -/
def lookupDetector (detectors : List (String × Detector)) (det_id : String) : Option Detector :=
  (detectors.find? (fun p => decide (p.1 = det_id))).map (fun p => p.2)

/-- Embeds `MAX_STAY_DURATION` (clustering_utils.py): 900 seconds. -/
def MAX_STAY_DURATION : ℚ := 900

/-- Squared euclidean distance between two detectors: the radicand of
`calculate_euclidean_distance` (distance_calculator.py). -/
def dist2 (det1 det2 : Detector) : ℚ :=
  (det2.x - det1.x) ^ 2 + (det2.y - det1.y) ^ 2

/-- Embeds `calculate_euclidean_distance` (distance_calculator.py):
`sqrt((x2-x1)^2 + (y2-y1)^2)`. -/
noncomputable def calculate_euclidean_distance (det1 det2 : Detector) : ℝ :=
  Real.sqrt ((dist2 det1 det2 : ℚ) : ℝ)

/-- Embeds `calculate_min_travel_time` (distance_calculator.py):
`distance / speed if speed > 0 else 0.0`. -/
noncomputable def calculate_min_travel_time (det1 det2 : Detector) (speed : ℚ) : ℝ :=
  if 0 < speed then calculate_euclidean_distance det1 det2 / (speed : ℝ) else 0

/-- Decidable rational reflection of the feasibility comparison
`time_diff < calculate_min_travel_time det1 det2 speed * factor`, where `dd`
is the squared distance `dist2 det1 det2`.  For `0 < speed` the comparison
is squared away (`t < √dd/speed*factor ↔ t < 0 ∨ (0 ≤ t ∧ (t*speed)² < dd*factor²)`
for `0 ≤ factor`); for `speed ≤ 0` the source's min travel time is `0`, so the
comparison is `time_diff < 0`.  `impossibleMove_iff` proves the equivalence. -/
def impossibleMove (time_diff dd speed factor : ℚ) : Bool :=
  if 0 < speed then
    decide (time_diff < 0) || decide (0 ≤ time_diff ∧ (time_diff * speed) ^ 2 < dd * factor ^ 2)
  else
    decide (time_diff < 0)

theorem dist2_nonneg (det1 det2 : Detector) : 0 ≤ dist2 det1 det2 :=
  add_nonneg (sq_nonneg _) (sq_nonneg _)

theorem calculate_euclidean_distance_nonneg (det1 det2 : Detector) :
    0 ≤ calculate_euclidean_distance det1 det2 :=
  Real.sqrt_nonneg _

/-- The rational reflection `impossibleMove` decides exactly the real-valued
comparison `time_diff < calculate_min_travel_time det1 det2 speed * factor`
performed by the source, for any nonnegative `impossible_factor`. -/
theorem impossibleMove_iff (t speed f : ℚ) (det1 det2 : Detector) (hf : 0 ≤ f) :
    impossibleMove t (dist2 det1 det2) speed f = true ↔
      (t : ℝ) < calculate_min_travel_time det1 det2 speed * (f : ℝ) := by
  unfold impossibleMove calculate_min_travel_time calculate_euclidean_distance
  by_cases hs : 0 < speed
  · have hsR : (0 : ℝ) < (speed : ℝ) := by exact_mod_cast hs
    have hfR : (0 : ℝ) ≤ (f : ℝ) := by exact_mod_cast hf
    have hD : (0 : ℝ) ≤ ((dist2 det1 det2 : ℚ) : ℝ) := by
      exact_mod_cast dist2_nonneg det1 det2
    simp only [hs, if_true, Bool.or_eq_true, decide_eq_true_eq]
    have hsqrt : Real.sqrt ((dist2 det1 det2 : ℚ) : ℝ) / (speed : ℝ) * (f : ℝ)
        = Real.sqrt (((dist2 det1 det2 : ℚ) : ℝ) * (f : ℝ) ^ 2) / (speed : ℝ) := by
      rw [Real.sqrt_mul hD, div_mul_eq_mul_div]
      congr 1
      rw [Real.sqrt_sq hfR]
    rw [hsqrt, lt_div_iff₀ hsR]
    constructor
    · rintro (ht | ⟨ht, hlt⟩)
      · have : (t : ℝ) * (speed : ℝ) < 0 := by
          apply mul_neg_of_neg_of_pos _ hsR
          exact_mod_cast ht
        exact lt_of_lt_of_le this (Real.sqrt_nonneg _)
      · have htR : (0 : ℝ) ≤ (t : ℝ) * (speed : ℝ) := by
          apply mul_nonneg _ (le_of_lt hsR)
          exact_mod_cast ht
        rw [Real.lt_sqrt htR]
        exact_mod_cast hlt
    · intro h
      by_cases ht : 0 ≤ t
      · right
        refine ⟨ht, ?_⟩
        have htR : (0 : ℝ) ≤ (t : ℝ) * (speed : ℝ) := by
          apply mul_nonneg _ (le_of_lt hsR)
          exact_mod_cast ht
        rw [Real.lt_sqrt htR] at h
        exact_mod_cast h
      · left
        exact lt_of_not_ge ht
  · simp only [hs, if_false, decide_eq_true_eq]
    constructor
    · intro ht
      have : (t : ℝ) < 0 := by exact_mod_cast ht
      simpa using this
    · intro h
      have : (t : ℝ) < 0 := by simpa using h
      exact_mod_cast this

/-- Embeds the record mutation performed by `ClusterState.add_record`
(cluster_state.py): `record.is_judged = True; record.cluster_id = self.cluster_id`. -/
def markJudged (record : DetectionRecord) (cid : String) : DetectionRecord :=
  { record with is_judged := true, cluster_id := cid }

/-- Embeds `ClusterState.add_record` (cluster_state.py): mark the record
judged with this cluster's id, append it to `cluster_records`, append the
detector id to `route_sequence` when `add_to_route` is set and the route is
empty or ends in a different detector, and update `prev_record`. -/
def ClusterState.add_record (s : ClusterState) (record : DetectionRecord)
    (add_to_route : Bool) : ClusterState :=
  let r := markJudged record s.cluster_id
  { s with
    cluster_records := s.cluster_records ++ [r]
    route_sequence :=
      if add_to_route ∧ s.route_sequence.getLast? ≠ some r.detector_id then
        s.route_sequence ++ [r.detector_id]
      else s.route_sequence
    prev_record := r }

/-- Embeds `is_sequence_anomaly` (clustering_utils.py):
`abs(record2.sequence_number - record1.sequence_number) > 64` combined with
the infeasibility comparison `time_diff < min_travel_time * impossible_factor`.
The source receives `min_travel_time` directly; here the comparison is taken
in its decidable reflection `impossibleMove` over the squared distance `dd`
(see `impossibleMove_iff`). -/
def is_sequence_anomaly (record1 record2 : DetectionRecord)
    (time_diff dd speed factor : ℚ) : Bool :=
  decide (64 < |record2.sequence_number - record1.sequence_number|) &&
    impossibleMove time_diff dd speed factor

/-- Embeds `_judge_candidate_record` (clustering.py lines 17-91): classify the
next candidate record against the cluster's current state.  `none` models the
`KeyError` raised when a detector id is missing from the registry. -/
def judgeCandidateRecord (state : ClusterState) (candidate_record : DetectionRecord)
    (config : ClusteringConfig) : Option RecordAction :=
  let prev_record := state.prev_record
  let current_detector := state.route_sequence.getLast?
  if some candidate_record.detector_id = current_detector then
    if config.allow_long_stays then
      some RecordAction.ADD_AS_STAY
    else if candidate_record.timestamp - prev_record.timestamp ≤ MAX_STAY_DURATION then
      some RecordAction.ADD_AS_STAY
    else
      some RecordAction.FORWARD_SEARCH
  else
    match lookupDetector config.detectors prev_record.detector_id,
        lookupDetector config.detectors candidate_record.detector_id with
    | some det_prev, some det_cand =>
      if impossibleMove (candidate_record.timestamp - prev_record.timestamp)
          (dist2 det_prev det_cand) config.walker_speed config.impossible_factor then
        some RecordAction.FORWARD_SEARCH
      else
        some RecordAction.ADD_AS_MOVE
    | _, _ => none

/-- Embeds `_evaluate_scan_record` (clustering.py lines 94-200): evaluate one
record during forward search.  Already-judged records are skipped; same-place
records are absorbed as continuing stays (within `MAX_STAY_DURATION` unless
`allow_long_stays`); detectors already on the route are skipped (loop
avoidance); otherwise the record is rejected on a sequence-number anomaly or
an impossible movement, and accepted (`FOUND`) when feasible. -/
def evaluateScanRecord (state : ClusterState) (scan_record : DetectionRecord)
    (config : ClusteringConfig) : Option ForwardSearchAction :=
  if scan_record.is_judged then
    some ForwardSearchAction.SKIP
  else
    let prev_record := state.prev_record
    let current_detector := state.route_sequence.getLast?
    if some scan_record.detector_id = current_detector then
      if config.allow_long_stays then
        some ForwardSearchAction.ADD_AND_CONTINUE
      else if scan_record.timestamp - prev_record.timestamp ≤ MAX_STAY_DURATION then
        some ForwardSearchAction.ADD_AND_CONTINUE
      else
        some ForwardSearchAction.SKIP
    else if scan_record.detector_id ∈ state.route_sequence then
      some ForwardSearchAction.SKIP
    else
      match lookupDetector config.detectors prev_record.detector_id,
          lookupDetector config.detectors scan_record.detector_id with
      | some det_prev, some det_scan =>
        let scan_time_diff := scan_record.timestamp - prev_record.timestamp
        let dd := dist2 det_prev det_scan
        if is_sequence_anomaly prev_record scan_record scan_time_diff dd
            config.walker_speed config.impossible_factor then
          some ForwardSearchAction.SKIP
        else if impossibleMove scan_time_diff dd config.walker_speed
            config.impossible_factor then
          some ForwardSearchAction.SKIP
        else
          some ForwardSearchAction.FOUND
      | _, _ => none

/-- Variant of `evaluateScanRecord` with the sequence-number-anomaly rejection
removed, written from the structure `_evaluate_scan_record` would have without
lines 188-193 of clustering.py; used to state that the anomaly check is
behaviorally redundant (claim C9). -/
def evaluateScanRecordNoSeqCheck (state : ClusterState) (scan_record : DetectionRecord)
    (config : ClusteringConfig) : Option ForwardSearchAction :=
  if scan_record.is_judged then
    some ForwardSearchAction.SKIP
  else
    let prev_record := state.prev_record
    let current_detector := state.route_sequence.getLast?
    if some scan_record.detector_id = current_detector then
      if config.allow_long_stays then
        some ForwardSearchAction.ADD_AND_CONTINUE
      else if scan_record.timestamp - prev_record.timestamp ≤ MAX_STAY_DURATION then
        some ForwardSearchAction.ADD_AND_CONTINUE
      else
        some ForwardSearchAction.SKIP
    else if scan_record.detector_id ∈ state.route_sequence then
      some ForwardSearchAction.SKIP
    else
      match lookupDetector config.detectors prev_record.detector_id,
          lookupDetector config.detectors scan_record.detector_id with
      | some det_prev, some det_scan =>
        if impossibleMove (scan_record.timestamp - prev_record.timestamp)
            (dist2 det_prev det_scan) config.walker_speed config.impossible_factor then
          some ForwardSearchAction.SKIP
        else
          some ForwardSearchAction.FOUND
      | _, _ => none

/-- Loop body of `_forward_search` (clustering.py lines 208-279), as a fuel
recursion over the remaining scan positions.  The store (the group's record
list) is threaded through because absorbing a stay mutates the scanned record.
Result `none` models a raised `KeyError`; otherwise the result carries the
optional found index, the updated store and the updated cluster state. -/
def fsGo (config : ClusteringConfig) :
    ℕ → List DetectionRecord → ClusterState → ℕ →
    Option (Option ℕ × List DetectionRecord × ClusterState)
  | 0, store, s, _ => some (none, store, s)
  | fuel + 1, store, s, scan_idx =>
    match store.get? scan_idx with
    | none => some (none, store, s)
    | some scan_record =>
      match evaluateScanRecord s scan_record config with
      | none => none
      | some ForwardSearchAction.SKIP => fsGo config fuel store s (scan_idx + 1)
      | some ForwardSearchAction.ADD_AND_CONTINUE =>
        fsGo config fuel (store.set scan_idx (markJudged scan_record s.cluster_id))
          (s.add_record scan_record false) (scan_idx + 1)
      | some ForwardSearchAction.FOUND => some (some scan_idx, store, s)

/-- Embeds `_forward_search` (clustering.py lines 208-279): scan forward from
`start_idx` for the first reachable record.  The fuel `store.length - start_idx`
is exactly the number of remaining positions the source loop can visit. -/
def forwardSearch (store : List DetectionRecord) (s : ClusterState) (start_idx : ℕ)
    (config : ClusteringConfig) :
    Option (Option ℕ × List DetectionRecord × ClusterState) :=
  fsGo config (store.length - start_idx) store s start_idx

/-- Main loop of `_cluster_one_group` (clustering.py lines 348-381), as a fuel
recursion.  The scan index strictly increases on every iteration (a successful
forward search returns an index no smaller than its start, see
`fsGo_found_bounds`), so fuel `store.length - start_idx` is never exhausted
before the source loop's exit condition `idx ≥ len(records)` holds. -/
def cogGo (config : ClusteringConfig) :
    ℕ → List DetectionRecord → ClusterState → ℕ →
    Option (List DetectionRecord × ClusterState)
  | 0, store, s, _ => some (store, s)
  | fuel + 1, store, s, idx =>
    match store.get? idx with
    | none => some (store, s)
    | some candidate =>
      if candidate.is_judged then
        cogGo config fuel store s (idx + 1)
      else
        match judgeCandidateRecord s candidate config with
        | none => none
        | some RecordAction.ADD_AS_STAY =>
          cogGo config fuel (store.set idx (markJudged candidate s.cluster_id))
            (s.add_record candidate false) (idx + 1)
        | some RecordAction.ADD_AS_MOVE =>
          cogGo config fuel (store.set idx (markJudged candidate s.cluster_id))
            (s.add_record candidate true) (idx + 1)
        | some RecordAction.FORWARD_SEARCH =>
          match forwardSearch store s idx config with
          | none => none
          | some (none, store', s') => some (store', s')
          | some (some found_idx, store', s') =>
            match store'.get? found_idx with
            | none => some (store', s')
            | some found_record =>
              cogGo config fuel (store'.set found_idx (markJudged found_record s'.cluster_id))
                (s'.add_record found_record true) (found_idx + 1)

/-- Embeds `_cluster_one_group` (clustering.py lines 287-382): find the first
unjudged record, seed a cluster state from it, then run the main loop.  The
inner `none` result models "no unjudged record existed" (Python `return None`);
the outer `none` models a raised `KeyError`. -/
def clusterOneGroup (store : List DetectionRecord) (cluster_id : String)
    (config : ClusteringConfig) :
    Option (Option (List DetectionRecord × List String) × List DetectionRecord) :=
  let start_idx := store.findIdx (fun r => !r.is_judged)
  match store.get? start_idx with
  | none => some (none, store)
  | some first_record =>
    let s0 : ClusterState :=
      { cluster_id := cluster_id, cluster_records := [], route_sequence := [],
        prev_record := first_record }
    let s1 := s0.add_record first_record true
    let store1 := store.set start_idx (markJudged first_record cluster_id)
    match cogGo config (store.length - (start_idx + 1)) store1 s1 (start_idx + 1) with
    | none => none
    | some (store', s') => some (some (s'.cluster_records, s'.route_sequence), store')

/-- Keys of `records_by_detector` in first-insertion order, as produced by the
`defaultdict` loop of `_create_estimated_stays` (clustering.py lines 522-524). -/
def firstOccKeys (l : List String) : List String :=
  l.foldl (fun acc d => if d ∈ acc then acc else acc ++ [d]) []

/-- Python's `min(...)` over a list of timestamps (total, with an unreachable
default for the empty list, which Python would reject with `ValueError`). -/
def minTsList (l : List ℚ) : ℚ :=
  match l with
  | [] => 0
  | t :: ts => ts.foldl min t

/-- Embeds `_create_estimated_stays` (clustering.py lines 500-551): group a
cluster's records by detector id, order the detector groups by each group's
earliest timestamp (`sorted` with a key is a stable sort, as is
`List.insertionSort` with a `≤`-key relation), and emit one stay per group
with the group's first/last timestamp, derived duration and detection count.
The `detectors` parameter is kept from the source signature; the source body
does not use it either. -/
def createEstimatedStays (cluster_records : List DetectionRecord)
    (detectors : List (String × Detector)) : List EstimatedStay :=
  let keys := firstOccKeys (cluster_records.map (fun r => r.detector_id))
  let groupOf := fun d => cluster_records.filter (fun r => decide (r.detector_id = d))
  let minTsOf := fun d => minTsList ((groupOf d).map (fun r => r.timestamp))
  let detector_order := keys.insertionSort (fun d1 d2 => minTsOf d1 ≤ minTsOf d2)
  detector_order.map (fun d =>
    let det_records := (groupOf d).insertionSort (fun r1 r2 => r1.timestamp ≤ r2.timestamp)
    let first_detection := ((det_records.head?).map (fun r => r.timestamp)).getD 0
    let last_detection := ((det_records.getLast?).map (fun r => r.timestamp)).getD 0
    { detector_id := d
      first_detection := first_detection
      last_detection := last_detection
      estimated_duration_seconds := last_detection - first_detection
      num_detections := det_records.length })

/-- Lookup in the per-group cluster counter, with `defaultdict(int)` default 0. -/
def counterGet (counter : List (String × ℕ)) (k : String) : ℕ :=
  ((counter.find? (fun p => decide (p.1 = k))).map (fun p => p.2)).getD 0

/-- Embeds `cluster_counter[integrated_hash] += 1` on the `defaultdict`. -/
def counterBump (counter : List (String × ℕ)) (k : String) : List (String × ℕ) :=
  if counter.any (fun p => decide (p.1 = k)) then
    counter.map (fun p => if p.1 = k then (p.1, p.2 + 1) else p)
  else
    counter ++ [(k, 1)]

/-- Group loop of `cluster_records` (clustering.py lines 458-491): for each
hash group in insertion order, bump the counter, extract one cluster, and keep
the cluster as a trajectory when its route visits at least two detectors. -/
def crGo (config : ClusteringConfig) (detectors : List (String × Detector)) :
    List (String × List DetectionRecord) → List EstimatedTrajectory →
    List (String × ℕ) →
    Option (List EstimatedTrajectory × List (String × List DetectionRecord) ×
      List (String × ℕ))
  | [], trajectories, counter => some (trajectories, [], counter)
  | (integrated_hash, records) :: rest, trajectories, counter =>
    if records = [] then
      match crGo config detectors rest trajectories counter with
      | none => none
      | some (ts, rest', c') => some (ts, (integrated_hash, records) :: rest', c')
    else
      let counter' := counterBump counter integrated_hash
      let cluster_id :=
        integrated_hash ++ "_cluster" ++ toString (counterGet counter' integrated_hash)
      match clusterOneGroup records cluster_id config with
      | none => none
      | some (result, records') =>
        let trajectories' :=
          match result with
          | none => trajectories
          | some (cluster_recs, route_sequence) =>
            if 2 ≤ route_sequence.length then
              trajectories ++
                [{ trajectory_id := "est_traj_" ++ toString (trajectories.length + 1)
                   cluster_ids := [cluster_id]
                   route := String.join route_sequence
                   stays := createEstimatedStays cluster_recs detectors
                   route_seq := route_sequence }]
            else trajectories
        match crGo config detectors rest trajectories' counter' with
        | none => none
        | some (ts, rest', c') => some (ts, (integrated_hash, records') :: rest', c')

/-- Embeds `cluster_records` (clustering.py lines 390-492): one full pass over
all hash groups, returning the trajectories found in this pass, the updated
grouped records and the updated per-group cluster counter. -/
def clusterRecords (grouped_records : List (String × List DetectionRecord))
    (detectors : List (String × Detector)) (walker_speed impossible_factor : ℚ)
    (allow_long_stays : Bool) (cluster_counter_state : List (String × ℕ)) :
    Option (List EstimatedTrajectory × List (String × List DetectionRecord) ×
      List (String × ℕ)) :=
  let config : ClusteringConfig :=
    { detectors := detectors, walker_speed := walker_speed
      impossible_factor := impossible_factor, allow_long_stays := allow_long_stays }
  crGo config detectors grouped_records [] cluster_counter_state

/-- Number of records with `is_judged = True` over all groups, as computed
before and after each pass by `estimate_trajectories`. -/
def countJudged (grouped : List (String × List DetectionRecord)) : ℕ :=
  (grouped.map (fun p => (p.2.filter (fun r => r.is_judged)).length)).sum

/-- Pass loop of `estimate_trajectories` (estimate_trajectories.py lines
76-133): run single passes, accumulating trajectories, until no record is
newly judged or the remaining-pass fuel (`max_passes`) is exhausted. -/
def etGo (detectors : List (String × Detector)) (walker_speed impossible_factor : ℚ)
    (allow_long_stays : Bool) :
    ℕ → List (String × List DetectionRecord) → List (String × ℕ) →
    List EstimatedTrajectory →
    Option (List EstimatedTrajectory × List (String × List DetectionRecord))
  | 0, grouped, _, all_trajectories => some (all_trajectories, grouped)
  | fuel + 1, grouped, counter, all_trajectories =>
    let judged_before := countJudged grouped
    match clusterRecords grouped detectors walker_speed impossible_factor
        allow_long_stays counter with
    | none => none
    | some (trajectories, grouped', counter') =>
      let judged_after := countJudged grouped'
      let all' := all_trajectories ++ trajectories
      if (judged_after : ℤ) - (judged_before : ℤ) = 0 then
        some (all', grouped')
      else
        etGo detectors walker_speed impossible_factor allow_long_stays fuel
          grouped' counter' all'

/-- Embeds `estimate_trajectories` (estimate_trajectories.py lines 15-152):
the multi-pass driver, starting from pass 1 with an empty cluster counter and
an empty trajectory accumulator. -/
def estimateTrajectories (grouped_records : List (String × List DetectionRecord))
    (detectors : List (String × Detector)) (walker_speed impossible_factor : ℚ)
    (allow_long_stays : Bool) (max_passes : ℕ) :
    Option (List EstimatedTrajectory × List (String × List DetectionRecord)) :=
  etGo detectors walker_speed impossible_factor allow_long_stays max_passes
    grouped_records [] []

/-- Detector A at the origin, as in the spec's example scenarios (§8). -/
def detA : Detector := { id := "A", x := 0, y := 0 }

/-- Detector B at (140, 0): min travel time A↔B at speed 1.4 is 100 s. -/
def detB : Detector := { id := "B", x := 140, y := 0 }

/-- The two-detector registry of the spec's example scenarios. -/
def regAB : List (String × Detector) := [("A", detA), ("B", detB)]

/-- The spec's example configuration: speed 1.4, impossible factor 0.8,
long stays not allowed. -/
def cfgAB : ClusteringConfig :=
  { detectors := regAB, walker_speed := 7/5, impossible_factor := 4/5
    allow_long_stays := false }

/-- Detection record at time `t` (seconds) at detector `d` with sequence
number `n`, in group "g", not yet judged. -/
def mkRec (t : ℚ) (d : String) (n : ℤ) : DetectionRecord :=
  { timestamp := t, walker_id := "w", hashed_id := "g", detector_id := d
    sequence_number := n }

/-- C1: for every cluster state whose registry contains both the last-accepted
record's detector and the candidate's detector (and a well-formed
configuration: positive speed, nonnegative impossible factor), when the
candidate's detector differs from the route tail, the candidate judge returns
FORWARD_SEARCH iff `elapsed < euclidean_distance(last, cand)/walker_speed *
impossible_factor`, and ADD_AS_MOVE otherwise. -/
theorem claim_C1_move_branch (state : ClusterState) (candidate_record : DetectionRecord)
    (config : ClusteringConfig) (det_prev det_cand : Detector)
    (hprev : lookupDetector config.detectors state.prev_record.detector_id = some det_prev)
    (hcand : lookupDetector config.detectors candidate_record.detector_id = some det_cand)
    (hne : some candidate_record.detector_id ≠ state.route_sequence.getLast?)
    (hs : 0 < config.walker_speed) (hf : 0 ≤ config.impossible_factor) :
    (judgeCandidateRecord state candidate_record config = some RecordAction.FORWARD_SEARCH ↔
      ((candidate_record.timestamp - state.prev_record.timestamp : ℚ) : ℝ) <
        calculate_euclidean_distance det_prev det_cand / (config.walker_speed : ℝ) *
          (config.impossible_factor : ℝ)) ∧
    (judgeCandidateRecord state candidate_record config = some RecordAction.ADD_AS_MOVE ↔
      ¬ ((candidate_record.timestamp - state.prev_record.timestamp : ℚ) : ℝ) <
        calculate_euclidean_distance det_prev det_cand / (config.walker_speed : ℝ) *
          (config.impossible_factor : ℝ)) := by
  have hmtt : calculate_min_travel_time det_prev det_cand config.walker_speed
      = calculate_euclidean_distance det_prev det_cand / (config.walker_speed : ℝ) := by
    unfold calculate_min_travel_time
    rw [if_pos hs]
  have key := impossibleMove_iff (candidate_record.timestamp - state.prev_record.timestamp)
    config.walker_speed config.impossible_factor det_prev det_cand hf
  rw [hmtt] at key
  unfold judgeCandidateRecord
  rw [if_neg hne]
  simp only [hprev, hcand]
  by_cases himp : impossibleMove (candidate_record.timestamp - state.prev_record.timestamp)
      (dist2 det_prev det_cand) config.walker_speed config.impossible_factor = true
  · rw [if_pos himp]
    have hreal := key.mp himp
    push_cast at hreal
    simp [hreal]
  · rw [if_neg himp]
    have hreal : ¬ ((candidate_record.timestamp - state.prev_record.timestamp : ℚ) : ℝ) <
        calculate_euclidean_distance det_prev det_cand / (config.walker_speed : ℝ) *
          (config.impossible_factor : ℝ) := fun hr => himp (key.mpr hr)
    push_cast at hreal
    simp [hreal]

/-- Witness for C1: state at A (route tail "A"), candidate at B 50 s later,
speed 1.4 and factor 0.8: the move needs at least 80 s, so the judge returns
FORWARD_SEARCH. -/
theorem claim_C1_witness :
    judgeCandidateRecord
      { cluster_id := "c", cluster_records := [markJudged (mkRec 0 "A" 0) "c"],
        route_sequence := ["A"], prev_record := markJudged (mkRec 0 "A" 0) "c" }
      (mkRec 50 "B" 0) cfgAB = some RecordAction.FORWARD_SEARCH := by
  refine (claim_C1_move_branch _ _ cfgAB detA detB ?_ ?_ ?_ ?_ ?_).1.mpr ?_
  · rfl
  · rfl
  · decide
  · norm_num [cfgAB]
  · norm_num [cfgAB]
  have h140 : calculate_euclidean_distance detA detB = 140 := by
    unfold calculate_euclidean_distance
    rw [show ((dist2 detA detB : ℚ) : ℝ) = (140 : ℝ) ^ 2 by norm_num [dist2, detA, detB]]
    exact Real.sqrt_sq (by norm_num)
  rw [h140]
  norm_num [mkRec, markJudged, cfgAB]

/-- C5: when the candidate's detector equals the route tail, the judge returns
ADD_AS_STAY unconditionally if `allow_long_stays` is set; otherwise it returns
ADD_AS_STAY iff the gap to the last-accepted record is at most 900 seconds,
and FORWARD_SEARCH iff the gap exceeds 900 seconds. -/
theorem claim_C5_stay_branch (state : ClusterState) (candidate_record : DetectionRecord)
    (config : ClusteringConfig)
    (htail : state.route_sequence.getLast? = some candidate_record.detector_id) :
    (config.allow_long_stays = true →
      judgeCandidateRecord state candidate_record config = some RecordAction.ADD_AS_STAY) ∧
    (config.allow_long_stays = false →
      ((judgeCandidateRecord state candidate_record config = some RecordAction.ADD_AS_STAY ↔
         candidate_record.timestamp - state.prev_record.timestamp ≤ 900) ∧
       (judgeCandidateRecord state candidate_record config = some RecordAction.FORWARD_SEARCH ↔
         900 < candidate_record.timestamp - state.prev_record.timestamp))) := by
  refine ⟨fun hals => ?_, fun hals => ?_⟩
  · unfold judgeCandidateRecord
    rw [if_pos htail.symm, if_pos hals]
  · unfold judgeCandidateRecord
    rw [if_pos htail.symm, if_neg (by simp [hals])]
    by_cases hst : candidate_record.timestamp - state.prev_record.timestamp ≤ MAX_STAY_DURATION
    · rw [if_pos hst]
      have hst' : candidate_record.timestamp - state.prev_record.timestamp ≤ 900 := hst
      constructor
      · simp [hst']
      · simp [not_lt.mpr hst']
    · rw [if_neg hst]
      have hst' : 900 < candidate_record.timestamp - state.prev_record.timestamp :=
        lt_of_not_ge hst
      constructor
      · simp [not_le.mpr hst']
      · simp [hst']

/-- Witness for C5: same-place candidate 901 s after the last record, long
stays not allowed: the judge returns FORWARD_SEARCH, and 901 > 900. -/
theorem claim_C5_witness :
    judgeCandidateRecord
      { cluster_id := "c", cluster_records := [markJudged (mkRec 0 "A" 0) "c"],
        route_sequence := ["A"], prev_record := markJudged (mkRec 0 "A" 0) "c" }
      (mkRec 901 "A" 0) cfgAB = some RecordAction.FORWARD_SEARCH := by
  apply ((claim_C5_stay_branch _ _ cfgAB (by decide)).2 (by decide)).2.mpr
  norm_num [mkRec, markJudged]

/-- C9: the sequence-number-anomaly rejection inside forward search is
behaviorally redundant: for every cluster state, scan record and
configuration, `evaluateScanRecord` returns the same action as the variant
without the anomaly check, because the anomaly condition implies the
impossible-movement condition checked immediately after, and both return
SKIP. -/
theorem claim_C9_seq_anomaly_redundant (state : ClusterState)
    (scan_record : DetectionRecord) (config : ClusteringConfig) :
    evaluateScanRecord state scan_record config =
      evaluateScanRecordNoSeqCheck state scan_record config := by
  by_cases h1 : scan_record.is_judged = true
  · simp [evaluateScanRecord, evaluateScanRecordNoSeqCheck, h1]
  · by_cases h2 : some scan_record.detector_id = state.route_sequence.getLast?
    · simp [evaluateScanRecord, evaluateScanRecordNoSeqCheck, h1, h2]
    · by_cases h3 : scan_record.detector_id ∈ state.route_sequence
      · simp [evaluateScanRecord, evaluateScanRecordNoSeqCheck, h1, h2, h3]
      · cases hl1 : lookupDetector config.detectors state.prev_record.detector_id with
        | none =>
          simp [evaluateScanRecord, evaluateScanRecordNoSeqCheck, h1, h2, h3, hl1]
        | some det_prev =>
          cases hl2 : lookupDetector config.detectors scan_record.detector_id with
          | none =>
            simp [evaluateScanRecord, evaluateScanRecordNoSeqCheck, h1, h2, h3, hl1, hl2]
          | some det_scan =>
            by_cases himp : impossibleMove
                (scan_record.timestamp - state.prev_record.timestamp)
                (dist2 det_prev det_scan) config.walker_speed
                config.impossible_factor = true
            · by_cases hseq :
                  64 < |scan_record.sequence_number - state.prev_record.sequence_number|
              · simp [evaluateScanRecord, evaluateScanRecordNoSeqCheck, is_sequence_anomaly,
                  h1, h2, h3, hl1, hl2, himp, hseq]
              · simp [evaluateScanRecord, evaluateScanRecordNoSeqCheck, is_sequence_anomaly,
                  h1, h2, h3, hl1, hl2, himp, hseq]
            · have himpf : impossibleMove
                  (scan_record.timestamp - state.prev_record.timestamp)
                  (dist2 det_prev det_scan) config.walker_speed
                  config.impossible_factor = false := Bool.eq_false_iff.mpr himp
              simp [evaluateScanRecord, evaluateScanRecordNoSeqCheck, is_sequence_anomaly,
                h1, h2, h3, hl1, hl2, himpf]

theorem firstOccKeys_aux_mem (l : List String) (acc : List String) (x : String) :
    x ∈ l.foldl (fun acc d => if d ∈ acc then acc else acc ++ [d]) acc ↔
      x ∈ acc ∨ x ∈ l := by
  induction l generalizing acc with
  | nil => simp
  | cons d l ih =>
    simp only [List.foldl_cons, List.mem_cons]
    by_cases hd : d ∈ acc
    · rw [if_pos hd, ih]
      constructor
      · rintro (h | h)
        · exact Or.inl h
        · exact Or.inr (Or.inr h)
      · rintro (h | h | h)
        · exact Or.inl h
        · exact Or.inl (h ▸ hd)
        · exact Or.inr h
    · rw [if_neg hd, ih]
      simp only [List.mem_append, List.mem_singleton]
      tauto

theorem firstOccKeys_mem (l : List String) (x : String) :
    x ∈ firstOccKeys l ↔ x ∈ l := by
  unfold firstOccKeys
  rw [firstOccKeys_aux_mem]
  simp

theorem firstOccKeys_aux_nodup (l : List String) (acc : List String) (hacc : acc.Nodup) :
    (l.foldl (fun acc d => if d ∈ acc then acc else acc ++ [d]) acc).Nodup := by
  induction l generalizing acc with
  | nil => simpa
  | cons d l ih =>
    simp only [List.foldl_cons]
    by_cases hd : d ∈ acc
    · rw [if_pos hd]
      exact ih acc hacc
    · rw [if_neg hd]
      apply ih
      simp [List.nodup_append, hacc, hd]

theorem firstOccKeys_nodup (l : List String) : (firstOccKeys l).Nodup :=
  firstOccKeys_aux_nodup l [] List.nodup_nil

theorem foldl_min_le_init (ts : List ℚ) (t : ℚ) : ts.foldl min t ≤ t := by
  induction ts generalizing t with
  | nil => simp
  | cons a ts ih =>
    simp only [List.foldl_cons]
    exact le_trans (ih (min t a)) (min_le_left _ _)

theorem foldl_min_le_mem (ts : List ℚ) : ∀ (t x : ℚ), x ∈ ts → ts.foldl min t ≤ x := by
  induction ts with
  | nil => intro t x hx; cases hx
  | cons a ts ih =>
    intro t x hx
    simp only [List.foldl_cons]
    rcases List.mem_cons.mp hx with h | h
    · exact le_trans (foldl_min_le_init ts (min t a)) (h ▸ min_le_right t a)
    · exact ih (min t a) x h

theorem foldl_min_mem (ts : List ℚ) (t : ℚ) : ts.foldl min t = t ∨ ts.foldl min t ∈ ts := by
  induction ts generalizing t with
  | nil => exact Or.inl rfl
  | cons a ts ih =>
    simp only [List.foldl_cons]
    rcases ih (min t a) with h | h
    · rcases min_choice t a with hm | hm
      · exact Or.inl (h.trans hm)
      · exact Or.inr (List.mem_cons.mpr (Or.inl (h.trans hm)))
    · exact Or.inr (List.mem_cons.mpr (Or.inr h))

theorem minTsList_mem (l : List ℚ) (h : l ≠ []) : minTsList l ∈ l := by
  match l with
  | t :: ts =>
    unfold minTsList
    rcases foldl_min_mem ts t with h | h
    · exact List.mem_cons.mpr (Or.inl h)
    · exact List.mem_cons.mpr (Or.inr h)

theorem minTsList_le (l : List ℚ) (x : ℚ) (hx : x ∈ l) : minTsList l ≤ x := by
  match l with
  | t :: ts =>
    unfold minTsList
    rcases List.mem_cons.mp hx with h | h
    · exact h ▸ foldl_min_le_init ts t
    · exact foldl_min_le_mem ts t x h

theorem sorted_ts_head (l : List DetectionRecord) (h0 : DetectionRecord)
    (hs : l.Sorted (fun r1 r2 => r1.timestamp ≤ r2.timestamp))
    (hh : l.head? = some h0) : ∀ x ∈ l, h0.timestamp ≤ x.timestamp := by
  match l with
  | [] => cases hh
  | a :: l =>
    cases hh
    intro x hx
    rcases List.mem_cons.mp hx with h | h
    · exact h ▸ le_refl _
    · exact List.rel_of_sorted_cons hs x h

theorem sorted_ts_getLast (l : List DetectionRecord) (b : DetectionRecord)
    (hs : l.Sorted (fun r1 r2 => r1.timestamp ≤ r2.timestamp))
    (hb : l.getLast? = some b) : ∀ x ∈ l, x.timestamp ≤ b.timestamp := by
  induction l with
  | nil => cases hb
  | cons a l ih =>
    intro x hx
    match hl : l with
    | [] =>
      cases hb
      simp only [List.mem_singleton] at hx
      exact hx ▸ le_refl _
    | c :: l' =>
      rw [List.getLast?_cons_cons] at hb
      have hbl : b ∈ c :: l' := List.mem_of_mem_getLast? hb
      rcases List.mem_cons.mp hx with h | h
      · exact h ▸ List.rel_of_sorted_cons hs b hbl
      · exact ih hs.of_cons hb x h

instance : IsTotal DetectionRecord (fun r1 r2 => r1.timestamp ≤ r2.timestamp) :=
  ⟨fun a b => le_total a.timestamp b.timestamp⟩

instance : IsTrans DetectionRecord (fun r1 r2 => r1.timestamp ≤ r2.timestamp) :=
  ⟨fun _ _ _ => le_trans⟩

theorem sorted_first_spec (G : List DetectionRecord) (hG : G ≠ []) :
    ((((G.insertionSort (fun r1 r2 => r1.timestamp ≤ r2.timestamp)).head?).map
        (fun r => r.timestamp)).getD 0) ∈ G.map (fun r => r.timestamp) ∧
    (∀ t ∈ G.map (fun r => r.timestamp),
      ((((G.insertionSort (fun r1 r2 => r1.timestamp ≤ r2.timestamp)).head?).map
        (fun r => r.timestamp)).getD 0) ≤ t) ∧
    ((((G.insertionSort (fun r1 r2 => r1.timestamp ≤ r2.timestamp)).head?).map
        (fun r => r.timestamp)).getD 0) = minTsList (G.map (fun r => r.timestamp)) := by
  have hperm := List.perm_insertionSort (fun r1 r2 => r1.timestamp ≤ r2.timestamp) G
  have hs := List.sorted_insertionSort (fun r1 r2 => r1.timestamp ≤ r2.timestamp) G
  have hSne : G.insertionSort (fun r1 r2 => r1.timestamp ≤ r2.timestamp) ≠ [] := by
    intro h
    exact hG (List.Perm.eq_nil (h ▸ hperm.symm))
  obtain ⟨h0, S', hS⟩ := List.exists_cons_of_ne_nil hSne
  have hhead : (G.insertionSort (fun r1 r2 => r1.timestamp ≤ r2.timestamp)).head? = some h0 := by
    rw [hS]; rfl
  have hbound : ∀ x ∈ G.insertionSort (fun r1 r2 => r1.timestamp ≤ r2.timestamp),
      h0.timestamp ≤ x.timestamp := sorted_ts_head _ h0 hs hhead
  have hmem : h0 ∈ G := hperm.mem_iff.mp (hS ▸ List.mem_cons_self h0 S')
  rw [hhead]
  simp only [Option.map_some', Option.getD_some]
  refine ⟨List.mem_map_of_mem _ hmem, ?_, ?_⟩
  · intro t ht
    obtain ⟨x, hx, rfl⟩ := List.mem_map.mp ht
    exact hbound x (hperm.mem_iff.mpr hx)
  · apply le_antisymm
    · have hmmem := minTsList_mem (G.map (fun r => r.timestamp))
        (by simpa using hG)
      obtain ⟨g, hg, hgeq⟩ := List.mem_map.mp hmmem
      rw [← hgeq]
      exact hbound g (hperm.mem_iff.mpr hg)
    · exact minTsList_le _ _ (List.mem_map_of_mem _ hmem)

theorem sorted_last_spec (G : List DetectionRecord) (hG : G ≠ []) :
    ((((G.insertionSort (fun r1 r2 => r1.timestamp ≤ r2.timestamp)).getLast?).map
        (fun r => r.timestamp)).getD 0) ∈ G.map (fun r => r.timestamp) ∧
    (∀ t ∈ G.map (fun r => r.timestamp),
      t ≤ ((((G.insertionSort (fun r1 r2 => r1.timestamp ≤ r2.timestamp)).getLast?).map
        (fun r => r.timestamp)).getD 0)) := by
  have hperm := List.perm_insertionSort (fun r1 r2 => r1.timestamp ≤ r2.timestamp) G
  have hs := List.sorted_insertionSort (fun r1 r2 => r1.timestamp ≤ r2.timestamp) G
  have hSne : G.insertionSort (fun r1 r2 => r1.timestamp ≤ r2.timestamp) ≠ [] := by
    intro h
    exact hG (List.Perm.eq_nil (h ▸ hperm.symm))
  obtain ⟨b, hb⟩ := Option.ne_none_iff_exists'.mp
    (mt List.getLast?_eq_none_iff.mp hSne)
  have hbound : ∀ x ∈ G.insertionSort (fun r1 r2 => r1.timestamp ≤ r2.timestamp),
      x.timestamp ≤ b.timestamp := sorted_ts_getLast _ b hs hb
  have hmem : b ∈ G := hperm.mem_iff.mp (List.mem_of_mem_getLast? hb)
  rw [hb]
  simp only [Option.map_some', Option.getD_some]
  refine ⟨List.mem_map_of_mem _ hmem, ?_⟩
  intro t ht
  obtain ⟨x, hx, rfl⟩ := List.mem_map.mp ht
  exact hbound x (hperm.mem_iff.mpr hx)

/-- C8: for every finished cluster, the stay aggregator emits stays whose
detector ids are exactly the distinct detectors of the cluster's records
(each exactly once), ordered by each detector group's earliest timestamp
(the emitted `first_detection` values are nondecreasing); each stay's
first/last detection are the minimum/maximum timestamp of that detector's
records, its duration is last minus first, and its detection count is the
group's size. -/
theorem claim_C8_stay_aggregation (cluster_records : List DetectionRecord)
    (detectors : List (String × Detector)) :
    (((createEstimatedStays cluster_records detectors).map
        (fun st => st.first_detection)).Sorted (· ≤ ·)) ∧
    ((createEstimatedStays cluster_records detectors).map (fun st => st.detector_id)).Nodup ∧
    (∀ d, (d ∈ (createEstimatedStays cluster_records detectors).map (fun st => st.detector_id)) ↔
      d ∈ cluster_records.map (fun r => r.detector_id)) ∧
    (∀ st ∈ createEstimatedStays cluster_records detectors,
      st.first_detection ∈ (cluster_records.filter
          (fun r => decide (r.detector_id = st.detector_id))).map (fun r => r.timestamp) ∧
      (∀ t ∈ (cluster_records.filter
          (fun r => decide (r.detector_id = st.detector_id))).map (fun r => r.timestamp),
        st.first_detection ≤ t) ∧
      st.last_detection ∈ (cluster_records.filter
          (fun r => decide (r.detector_id = st.detector_id))).map (fun r => r.timestamp) ∧
      (∀ t ∈ (cluster_records.filter
          (fun r => decide (r.detector_id = st.detector_id))).map (fun r => r.timestamp),
        t ≤ st.last_detection) ∧
      st.estimated_duration_seconds = st.last_detection - st.first_detection ∧
      st.num_detections = (cluster_records.filter
          (fun r => decide (r.detector_id = st.detector_id))).length) := by
  have hgne : ∀ d, d ∈ cluster_records.map (fun r => r.detector_id) →
      cluster_records.filter (fun r => decide (r.detector_id = d)) ≠ [] := by
    intro d hd
    obtain ⟨r, hr, hrd⟩ := List.mem_map.mp hd
    apply List.ne_nil_of_mem (a := r)
    rw [List.mem_filter]
    exact ⟨hr, by simp [hrd]⟩
  haveI htot : IsTotal String (fun d1 d2 =>
      minTsList ((cluster_records.filter (fun r => decide (r.detector_id = d1))).map
        (fun r => r.timestamp)) ≤
      minTsList ((cluster_records.filter (fun r => decide (r.detector_id = d2))).map
        (fun r => r.timestamp))) := ⟨fun _ _ => le_total _ _⟩
  haveI htrans : IsTrans String (fun d1 d2 =>
      minTsList ((cluster_records.filter (fun r => decide (r.detector_id = d1))).map
        (fun r => r.timestamp)) ≤
      minTsList ((cluster_records.filter (fun r => decide (r.detector_id = d2))).map
        (fun r => r.timestamp))) := ⟨fun _ _ _ => le_trans⟩
  refine ⟨?_, ?_, ?_, ?_⟩
  · simp only [createEstimatedStays]
    rw [List.map_map]
    rw [List.Sorted, List.pairwise_map]
    have horder := List.sorted_insertionSort (fun d1 d2 =>
      minTsList ((cluster_records.filter (fun r => decide (r.detector_id = d1))).map
        (fun r => r.timestamp)) ≤
      minTsList ((cluster_records.filter (fun r => decide (r.detector_id = d2))).map
        (fun r => r.timestamp)))
      (firstOccKeys (cluster_records.map (fun r => r.detector_id)))
    refine List.Pairwise.imp_of_mem ?_ horder
    intro a b ha hb hab
    have hamem : a ∈ cluster_records.map (fun r => r.detector_id) :=
      (firstOccKeys_mem _ a).mp ((List.perm_insertionSort _ _).mem_iff.mp ha)
    have hbmem : b ∈ cluster_records.map (fun r => r.detector_id) :=
      (firstOccKeys_mem _ b).mp ((List.perm_insertionSort _ _).mem_iff.mp hb)
    have hfa := (sorted_first_spec _ (hgne a hamem)).2.2
    have hfb := (sorted_first_spec _ (hgne b hbmem)).2.2
    show ((((cluster_records.filter (fun r => decide (r.detector_id = a))).insertionSort
        (fun r1 r2 => r1.timestamp ≤ r2.timestamp)).head?).map
        (fun r => r.timestamp)).getD 0 ≤
      ((((cluster_records.filter (fun r => decide (r.detector_id = b))).insertionSort
        (fun r1 r2 => r1.timestamp ≤ r2.timestamp)).head?).map
        (fun r => r.timestamp)).getD 0
    rw [hfa, hfb]
    exact hab
  · simp only [createEstimatedStays]
    rw [List.map_map]
    have hid : ((fun st : EstimatedStay => st.detector_id) ∘ (fun d =>
        ({ detector_id := d
           first_detection := ((((cluster_records.filter
               (fun r => decide (r.detector_id = d))).insertionSort
               (fun r1 r2 => r1.timestamp ≤ r2.timestamp)).head?).map
               (fun r => r.timestamp)).getD 0
           last_detection := ((((cluster_records.filter
               (fun r => decide (r.detector_id = d))).insertionSort
               (fun r1 r2 => r1.timestamp ≤ r2.timestamp)).getLast?).map
               (fun r => r.timestamp)).getD 0
           estimated_duration_seconds := ((((cluster_records.filter
               (fun r => decide (r.detector_id = d))).insertionSort
               (fun r1 r2 => r1.timestamp ≤ r2.timestamp)).getLast?).map
               (fun r => r.timestamp)).getD 0 - ((((cluster_records.filter
               (fun r => decide (r.detector_id = d))).insertionSort
               (fun r1 r2 => r1.timestamp ≤ r2.timestamp)).head?).map
               (fun r => r.timestamp)).getD 0
           num_detections := ((cluster_records.filter
               (fun r => decide (r.detector_id = d))).insertionSort
               (fun r1 r2 => r1.timestamp ≤ r2.timestamp)).length } : EstimatedStay)))
        = id := funext fun d => rfl
    rw [hid, List.map_id]
    exact ((List.perm_insertionSort _ _).nodup_iff).mpr (firstOccKeys_nodup _)
  · intro d
    simp only [createEstimatedStays]
    rw [List.map_map]
    constructor
    · intro h
      obtain ⟨x, hx, hxd⟩ := List.mem_map.mp h
      have : x ∈ cluster_records.map (fun r => r.detector_id) :=
        (firstOccKeys_mem _ x).mp ((List.perm_insertionSort _ _).mem_iff.mp hx)
      simpa [← hxd] using this
    · intro h
      refine List.mem_map.mpr ⟨d, ?_, rfl⟩
      exact (List.perm_insertionSort _ _).mem_iff.mpr ((firstOccKeys_mem _ d).mpr h)
  · intro st hst
    simp only [createEstimatedStays] at hst
    obtain ⟨d, hd, rfl⟩ := List.mem_map.mp hst
    have hdmem : d ∈ cluster_records.map (fun r => r.detector_id) :=
      (firstOccKeys_mem _ d).mp ((List.perm_insertionSort _ _).mem_iff.mp hd)
    have hne := hgne d hdmem
    have hf := sorted_first_spec (cluster_records.filter
      (fun r => decide (r.detector_id = d))) hne
    have hl := sorted_last_spec (cluster_records.filter
      (fun r => decide (r.detector_id = d))) hne
    refine ⟨hf.1, hf.2.1, hl.1, hl.2, rfl, ?_⟩
    exact (List.perm_insertionSort _ _).length_eq

/-- Witness basis for C8: a one-record cluster produces exactly one stay. -/
def c8stay : EstimatedStay :=
  { detector_id := "A", first_detection := 0, last_detection := 0,
    estimated_duration_seconds := 0, num_detections := 1 }

/-- Witness for C8: on the one-record cluster `[A at t = 0]` the aggregator's
stay has the group's minimum timestamp as first detection and the group's
size as detection count. -/
theorem claim_C8_witness :
    c8stay.first_detection ∈ (([mkRec 0 "A" 0].filter
      (fun r => decide (r.detector_id = c8stay.detector_id))).map (fun r => r.timestamp)) ∧
    c8stay.num_detections = ([mkRec 0 "A" 0].filter
      (fun r => decide (r.detector_id = c8stay.detector_id))).length := by
  have hmem : c8stay ∈ createEstimatedStays [mkRec 0 "A" 0] [] := by
    norm_num [createEstimatedStays, firstOccKeys, minTsList, List.insertionSort,
      List.orderedInsert, mkRec, c8stay]
  have h := (claim_C8_stay_aggregation [mkRec 0 "A" 0] []).2.2.2 c8stay hmem
  exact ⟨h.1, h.2.2.2.2.2⟩

/-- One record's evolution across any part of the engine: it is untouched, or
it was unjudged and was claimed exactly once (marked judged with some cluster
id); a record that is already judged is never modified. -/
def RecordEvol (r r' : DetectionRecord) : Prop :=
  r' = r ∨ (r.is_judged = false ∧ ∃ c, r' = markJudged r c)

/-- Evolution of a whole group's record list: same length, and each position
evolves by `RecordEvol`. -/
def StoreEvol (l l' : List DetectionRecord) : Prop :=
  l'.length = l.length ∧
    ∀ i r, l.get? i = some r → ∃ r', l'.get? i = some r' ∧ RecordEvol r r'

/-- Evolution of the full grouped-record mapping: same keys in the same
order, and each group's store evolves by `StoreEvol`. -/
def GroupedEvol (G G' : List (String × List DetectionRecord)) : Prop :=
  G'.length = G.length ∧
    ∀ k p, G.get? k = some p →
      ∃ p', G'.get? k = some p' ∧ p'.1 = p.1 ∧ StoreEvol p.2 p'.2

theorem recordEvol_refl (r : DetectionRecord) : RecordEvol r r := Or.inl (Eq.refl r)

theorem recordEvol_trans {r r' r'' : DetectionRecord}
    (h1 : RecordEvol r r') (h2 : RecordEvol r' r'') : RecordEvol r r'' := by
  rcases h1 with h1 | ⟨hj, c, hc⟩
  · exact h1 ▸ h2
  · rcases h2 with h2 | ⟨hj', _, _⟩
    · exact Or.inr ⟨hj, c, h2 ▸ hc⟩
    · rw [hc] at hj'
      cases hj'

theorem storeEvol_refl (l : List DetectionRecord) : StoreEvol l l :=
  ⟨Eq.refl _, fun _ r h => ⟨r, h, recordEvol_refl r⟩⟩

theorem storeEvol_trans {l l' l'' : List DetectionRecord}
    (h1 : StoreEvol l l') (h2 : StoreEvol l' l'') : StoreEvol l l'' := by
  refine ⟨h2.1.trans h1.1, fun i r h => ?_⟩
  obtain ⟨r', hr', he⟩ := h1.2 i r h
  obtain ⟨r'', hr'', he'⟩ := h2.2 i r' hr'
  exact ⟨r'', hr'', recordEvol_trans he he'⟩

theorem storeEvol_set {l : List DetectionRecord} {i : ℕ} {r : DetectionRecord}
    (hget : l.get? i = some r) (hj : r.is_judged = false) (c : String) :
    StoreEvol l (l.set i (markJudged r c)) := by
  refine ⟨List.length_set l i (markJudged r c), fun j q hq => ?_⟩
  by_cases hij : j = i
  · subst hij
    have hrq : r = q := by rw [hget] at hq; exact (Option.some.injEq _ _).mp hq
    subst hrq
    have hlt : j < l.length := (List.get?_eq_some.mp hget).1
    refine ⟨markJudged r c, ?_, Or.inr ⟨hj, c, Eq.refl _⟩⟩
    rw [List.get?_eq_getElem?]
    simp [List.getElem?_set, hlt]
  · refine ⟨q, ?_, recordEvol_refl q⟩
    rw [List.get?_eq_getElem?, List.getElem?_set,
      if_neg (fun h : i = j => hij h.symm), ← List.get?_eq_getElem?]
    exact hq

theorem groupedEvol_refl (G : List (String × List DetectionRecord)) : GroupedEvol G G :=
  ⟨Eq.refl _, fun _ p h => ⟨p, h, Eq.refl _, storeEvol_refl p.2⟩⟩

theorem groupedEvol_trans {G G' G'' : List (String × List DetectionRecord)}
    (h1 : GroupedEvol G G') (h2 : GroupedEvol G' G'') : GroupedEvol G G'' := by
  refine ⟨h2.1.trans h1.1, fun k p h => ?_⟩
  obtain ⟨p', hp', hk, he⟩ := h1.2 k p h
  obtain ⟨p'', hp'', hk', he'⟩ := h2.2 k p' hp'
  exact ⟨p'', hp'', hk'.trans hk, storeEvol_trans he he'⟩

theorem evaluateScanRecord_add_inv (state : ClusterState) (scan_record : DetectionRecord)
    (config : ClusteringConfig)
    (h : evaluateScanRecord state scan_record config =
      some ForwardSearchAction.ADD_AND_CONTINUE) :
    scan_record.is_judged = false ∧
      some scan_record.detector_id = state.route_sequence.getLast? := by
  by_cases h1 : scan_record.is_judged = true
  · simp [evaluateScanRecord, h1] at h
  · by_cases h2 : some scan_record.detector_id = state.route_sequence.getLast?
    · exact ⟨Bool.eq_false_iff.mpr h1, h2⟩
    · exfalso
      by_cases h3 : scan_record.detector_id ∈ state.route_sequence
      · simp [evaluateScanRecord, h1, h2, h3] at h
      · cases hl1 : lookupDetector config.detectors state.prev_record.detector_id with
        | none => simp [evaluateScanRecord, h1, h2, h3, hl1] at h
        | some dp =>
          cases hl2 : lookupDetector config.detectors scan_record.detector_id with
          | none => simp [evaluateScanRecord, h1, h2, h3, hl1, hl2] at h
          | some ds =>
            by_cases hanom : is_sequence_anomaly state.prev_record scan_record
                (scan_record.timestamp - state.prev_record.timestamp) (dist2 dp ds)
                config.walker_speed config.impossible_factor = true
            · simp [evaluateScanRecord, h1, h2, h3, hl1, hl2, hanom] at h
            · by_cases himp : impossibleMove
                  (scan_record.timestamp - state.prev_record.timestamp) (dist2 dp ds)
                  config.walker_speed config.impossible_factor = true
              · simp [evaluateScanRecord, h1, h2, h3, hl1, hl2, hanom, himp] at h
              · simp [evaluateScanRecord, h1, h2, h3, hl1, hl2, hanom, himp] at h

theorem evaluateScanRecord_found_unjudged (state : ClusterState)
    (scan_record : DetectionRecord) (config : ClusteringConfig)
    (h : evaluateScanRecord state scan_record config = some ForwardSearchAction.FOUND) :
    scan_record.is_judged = false := by
  by_cases h1 : scan_record.is_judged = true
  · simp [evaluateScanRecord, h1] at h
  · exact Bool.eq_false_iff.mpr h1

theorem add_record_cluster_id (s : ClusterState) (r : DetectionRecord) (b : Bool) :
    (s.add_record r b).cluster_id = s.cluster_id := rfl

theorem add_record_records (s : ClusterState) (r : DetectionRecord) (b : Bool) :
    (s.add_record r b).cluster_records =
      s.cluster_records ++ [markJudged r s.cluster_id] := rfl

theorem add_record_prev (s : ClusterState) (r : DetectionRecord) (b : Bool) :
    (s.add_record r b).prev_record = markJudged r s.cluster_id := rfl

theorem add_record_route_false (s : ClusterState) (r : DetectionRecord) :
    (s.add_record r false).route_sequence = s.route_sequence := by
  unfold ClusterState.add_record
  simp

theorem add_record_chain (s : ClusterState) (r : DetectionRecord) (b : Bool)
    (h : List.Chain' (· ≠ ·) s.route_sequence) :
    List.Chain' (· ≠ ·) (s.add_record r b).route_sequence := by
  unfold ClusterState.add_record
  dsimp only
  split
  · rename_i hcond
    apply List.Chain'.append h (List.chain'_singleton _)
    intro x hx y hy
    simp only [List.head?_cons, Option.mem_def, Option.some.injEq] at hy
    subst hy
    intro hxy
    apply hcond.2
    rw [Option.mem_def] at hx
    rw [hx, hxy]
  · exact h

theorem fsGo_spec (config : ClusteringConfig) (fuel : ℕ) :
    ∀ (store : List DetectionRecord) (s : ClusterState) (idx : ℕ)
      (res : Option ℕ) (store' : List DetectionRecord) (s' : ClusterState),
    fsGo config fuel store s idx = some (res, store', s') →
    StoreEvol store store' ∧
    s'.cluster_id = s.cluster_id ∧
    s'.route_sequence = s.route_sequence ∧
    (∀ k, k < idx → store'.get? k = store.get? k) ∧
    (∃ abs : List DetectionRecord,
      s'.cluster_records = s.cluster_records ++ abs ∧
      s'.prev_record = abs.foldl (fun _ r => r) s.prev_record ∧
      ∀ r ∈ abs, r.is_judged = true ∧ r.cluster_id = s.cluster_id ∧
        some r.detector_id = s.route_sequence.getLast? ∧
        ∃ j, store'.get? j = some r) ∧
    (∀ j, res = some j →
      ∃ rj, store'.get? j = some rj ∧ rj.is_judged = false) := by
  induction fuel with
  | zero =>
    intro store s idx res store' s' h
    simp only [fsGo, Option.some.injEq, Prod.mk.injEq] at h
    obtain ⟨hres, hstore, hs⟩ := h
    subst hres; subst hstore; subst hs
    refine ⟨storeEvol_refl store, rfl, rfl, fun k _ => rfl,
      ⟨[], by simp, rfl, by simp⟩, fun j hj => by cases hj⟩
  | succ fuel ih =>
    intro store s idx res store' s' h
    rw [fsGo] at h
    cases hget : store.get? idx with
    | none =>
      simp only [hget, Option.some.injEq, Prod.mk.injEq] at h
      obtain ⟨hres, hstore, hs⟩ := h
      subst hres; subst hstore; subst hs
      refine ⟨storeEvol_refl store, rfl, rfl, fun k _ => rfl,
        ⟨[], by simp, rfl, by simp⟩, fun j hj => by cases hj⟩
    | some scan =>
      simp only [hget] at h
      cases hev : evaluateScanRecord s scan config with
      | none =>
        simp only [hev] at h
        exact Option.noConfusion h
      | some a =>
        simp only [hev] at h
        cases a with
        | SKIP =>
          obtain ⟨hevol, hcid, hroute, hlow, ⟨abs, habs, hprev, hmem⟩, hres⟩ :=
            ih store s (idx + 1) res store' s' h
          exact ⟨hevol, hcid, hroute, fun k hk => hlow k (Nat.lt_succ_of_lt hk),
            ⟨abs, habs, hprev, hmem⟩, hres⟩
        | ADD_AND_CONTINUE =>
          obtain ⟨hju, hdet⟩ := evaluateScanRecord_add_inv s scan config hev
          obtain ⟨hevol, hcid, hroute, hlow, ⟨abs, habs, hprev, hmem⟩, hres⟩ :=
            ih (store.set idx (markJudged scan s.cluster_id))
              (s.add_record scan false) (idx + 1) res store' s' h
          have hsetidx : (store.set idx (markJudged scan s.cluster_id)).get? idx =
              some (markJudged scan s.cluster_id) := by
            have hlt : idx < store.length := (List.get?_eq_some.mp hget).1
            rw [List.get?_eq_getElem?]
            simp [List.getElem?_set, hlt]
          refine ⟨storeEvol_trans (storeEvol_set hget hju s.cluster_id) hevol,
            hcid.trans (add_record_cluster_id s scan false),
            hroute.trans (add_record_route_false s scan),
            ?_, ?_, hres⟩
          · intro k hk
            rw [hlow k (Nat.lt_succ_of_lt hk), List.get?_eq_getElem?,
              List.getElem?_set, if_neg (fun hik : idx = k => Nat.lt_irrefl k (hik ▸ hk)),
              ← List.get?_eq_getElem?]
          · refine ⟨markJudged scan s.cluster_id :: abs, ?_, ?_, ?_⟩
            · rw [habs, add_record_records]
              simp
            · rw [hprev, add_record_prev]
              simp
            · intro r hr
              rcases List.mem_cons.mp hr with hr | hr
              · subst hr
                refine ⟨rfl, rfl, hdet, idx, ?_⟩
                rw [hlow idx (Nat.lt_succ_self idx)]
                exact hsetidx
              · obtain ⟨hr1, hr2, hr3, hr4⟩ := hmem r hr
                refine ⟨hr1, hr2.trans (add_record_cluster_id s scan false), ?_, hr4⟩
                rw [hr3, add_record_route_false]
        | FOUND =>
          simp only [Option.some.injEq, Prod.mk.injEq] at h
          obtain ⟨hres, hstore, hs⟩ := h
          subst hres; subst hstore; subst hs
          refine ⟨storeEvol_refl store, rfl, rfl, fun k _ => rfl,
            ⟨[], by simp, rfl, by simp⟩, fun j hj => ?_⟩
          have hjidx : j = idx := (Option.some.injEq _ _).mp hj.symm
          subst hjidx
          exact ⟨scan, hget, evaluateScanRecord_found_unjudged s scan config hev⟩

theorem cogGo_spec (config : ClusteringConfig) (fuel : ℕ) :
    ∀ (store : List DetectionRecord) (s : ClusterState) (idx : ℕ)
      (store' : List DetectionRecord) (s' : ClusterState),
    cogGo config fuel store s idx = some (store', s') →
    StoreEvol store store' ∧ s'.cluster_id = s.cluster_id ∧
    (List.Chain' (· ≠ ·) s.route_sequence → List.Chain' (· ≠ ·) s'.route_sequence) := by
  induction fuel with
  | zero =>
    intro store s idx store' s' h
    simp only [cogGo, Option.some.injEq, Prod.mk.injEq] at h
    obtain ⟨h1, h2⟩ := h
    subst h1; subst h2
    exact ⟨storeEvol_refl store, rfl, fun hc => hc⟩
  | succ fuel ih =>
    intro store s idx store' s' h
    rw [cogGo] at h
    cases hget : store.get? idx with
    | none =>
      simp only [hget, Option.some.injEq, Prod.mk.injEq] at h
      obtain ⟨h1, h2⟩ := h
      subst h1; subst h2
      exact ⟨storeEvol_refl store, rfl, fun hc => hc⟩
    | some candidate =>
      simp only [hget] at h
      by_cases hj : candidate.is_judged = true
      · rw [if_pos hj] at h
        exact ih store s (idx + 1) store' s' h
      · rw [if_neg hj] at h
        cases hjud : judgeCandidateRecord s candidate config with
        | none =>
          simp only [hjud] at h
          exact Option.noConfusion h
        | some a =>
          simp only [hjud] at h
          cases a with
          | ADD_AS_STAY =>
            obtain ⟨hevol, hcid, hch⟩ := ih _ _ _ _ _ h
            exact ⟨storeEvol_trans (storeEvol_set hget (Bool.eq_false_iff.mpr hj) s.cluster_id) hevol,
              hcid.trans (add_record_cluster_id s candidate false),
              fun hc => hch (add_record_chain s candidate false hc)⟩
          | ADD_AS_MOVE =>
            obtain ⟨hevol, hcid, hch⟩ := ih _ _ _ _ _ h
            exact ⟨storeEvol_trans (storeEvol_set hget (Bool.eq_false_iff.mpr hj) s.cluster_id) hevol,
              hcid.trans (add_record_cluster_id s candidate true),
              fun hc => hch (add_record_chain s candidate true hc)⟩
          | FORWARD_SEARCH =>
            cases hfs : forwardSearch store s idx config with
            | none =>
              simp only [hfs] at h
              exact Option.noConfusion h
            | some trip =>
              obtain ⟨fres, fstore, fs⟩ := trip
              have hspec := fsGo_spec config (store.length - idx) store s idx fres fstore fs hfs
              cases fres with
              | none =>
                simp only [hfs, Option.some.injEq, Prod.mk.injEq] at h
                obtain ⟨h1, h2⟩ := h
                subst h1; subst h2
                exact ⟨hspec.1, hspec.2.1,
                  fun hc => by rw [hspec.2.2.1]; exact hc⟩
              | some found_idx =>
                simp only [hfs] at h
                cases hfget : fstore.get? found_idx with
                | none =>
                  simp only [hfget, Option.some.injEq, Prod.mk.injEq] at h
                  obtain ⟨h1, h2⟩ := h
                  subst h1; subst h2
                  exact ⟨hspec.1, hspec.2.1,
                    fun hc => by rw [hspec.2.2.1]; exact hc⟩
                | some found_record =>
                  simp only [hfget] at h
                  obtain ⟨hevol, hcid, hch⟩ := ih _ _ _ _ _ h
                  have hfr : found_record.is_judged = false := by
                    obtain ⟨rj, hrj, hrju⟩ := hspec.2.2.2.2.2 found_idx rfl
                    rw [hfget] at hrj
                    rw [(Option.some.injEq _ _).mp hrj]
                    exact hrju
                  refine ⟨storeEvol_trans hspec.1 (storeEvol_trans (storeEvol_set hfget hfr fs.cluster_id) hevol),
                    hcid.trans ((add_record_cluster_id fs found_record true).trans hspec.2.1),
                    fun hc => hch (add_record_chain fs found_record true
                      (by rw [hspec.2.2.1]; exact hc))⟩

theorem findIdx_unjudged (l : List DetectionRecord) (r : DetectionRecord)
    (h : l.get? (l.findIdx (fun x => !x.is_judged)) = some r) : r.is_judged = false := by
  induction l with
  | nil => cases h
  | cons a l ih =>
    rw [List.findIdx_cons] at h
    by_cases ha : a.is_judged = true
    · have hcond : (!a.is_judged) = false := by rw [ha]; rfl
      rw [hcond, cond_false, List.get?_cons_succ] at h
      exact ih h
    · have haf : a.is_judged = false := Bool.eq_false_iff.mpr ha
      have hcond : (!a.is_judged) = true := by rw [haf]; rfl
      rw [hcond, cond_true, List.get?_cons_zero] at h
      rw [← (Option.some.injEq _ _).mp h]
      exact haf

theorem clusterOneGroup_spec (store : List DetectionRecord) (cluster_id : String)
    (config : ClusteringConfig) (result : Option (List DetectionRecord × List String))
    (store' : List DetectionRecord)
    (h : clusterOneGroup store cluster_id config = some (result, store')) :
    StoreEvol store store' ∧
    (∀ recs route, result = some (recs, route) → List.Chain' (· ≠ ·) route) := by
  unfold clusterOneGroup at h
  cases hget : store.get? (store.findIdx (fun r => !r.is_judged)) with
  | none =>
    simp only [hget, Option.some.injEq, Prod.mk.injEq] at h
    obtain ⟨h1, h2⟩ := h
    subst h1; subst h2
    exact ⟨storeEvol_refl store, fun recs route hres => Option.noConfusion hres⟩
  | some first_record =>
    simp only [hget] at h
    cases hcog : cogGo config (store.length - (store.findIdx (fun r => !r.is_judged) + 1))
        (store.set (store.findIdx (fun r => !r.is_judged)) (markJudged first_record cluster_id))
        (ClusterState.add_record
          { cluster_id := cluster_id, cluster_records := [], route_sequence := [],
            prev_record := first_record } first_record true)
        (store.findIdx (fun r => !r.is_judged) + 1) with
    | none =>
      rw [hcog] at h
      exact Option.noConfusion h
    | some pair =>
      obtain ⟨cstore, cs⟩ := pair
      rw [hcog] at h
      simp only [Option.some.injEq, Prod.mk.injEq] at h
      obtain ⟨h1, h2⟩ := h
      subst h2
      have hfr : first_record.is_judged = false := findIdx_unjudged store first_record hget
      have hspec := cogGo_spec config _ _ _ _ _ _ hcog
      constructor
      · exact storeEvol_trans (storeEvol_set hget hfr cluster_id) hspec.1
      · intro recs route hres
        rw [← h1] at hres
        have hroute : route = cs.route_sequence :=
          ((Prod.mk.injEq _ _ _ _).mp ((Option.some.injEq _ _).mp hres)).2.symm
        subst hroute
        apply hspec.2.2
        exact add_record_chain _ _ _ List.chain'_nil

theorem groupedEvol_cons (k : String) {l l' : List DetectionRecord}
    {G G' : List (String × List DetectionRecord)}
    (hs : StoreEvol l l') (hG : GroupedEvol G G') :
    GroupedEvol ((k, l) :: G) ((k, l') :: G') := by
  refine ⟨by simp [hG.1], fun i p hp => ?_⟩
  cases i with
  | zero =>
    rw [List.get?_cons_zero] at hp
    refine ⟨(k, l'), List.get?_cons_zero, ?_, ?_⟩
    · rw [← (Option.some.injEq _ _).mp hp]
    · rw [← (Option.some.injEq _ _).mp hp]
      exact hs
  | succ i =>
    rw [List.get?_cons_succ] at hp
    obtain ⟨p', hp', hk, he⟩ := hG.2 i p hp
    exact ⟨p', by rw [List.get?_cons_succ]; exact hp', hk, he⟩

theorem crGo_spec (config : ClusteringConfig) (detectors : List (String × Detector)) :
    ∀ (grouped : List (String × List DetectionRecord))
      (trajs : List EstimatedTrajectory) (counter : List (String × ℕ))
      (trajs' : List EstimatedTrajectory)
      (grouped' : List (String × List DetectionRecord)) (counter' : List (String × ℕ)),
    crGo config detectors grouped trajs counter = some (trajs', grouped', counter') →
    GroupedEvol grouped grouped' ∧
    (∀ t ∈ trajs', t ∈ trajs ∨
      (List.Chain' (· ≠ ·) t.route_seq ∧ t.route = String.join t.route_seq ∧
        2 ≤ t.route_seq.length)) := by
  intro grouped
  induction grouped with
  | nil =>
    intro trajs counter trajs' grouped' counter' h
    simp only [crGo, Option.some.injEq, Prod.mk.injEq] at h
    obtain ⟨h1, h2, h3⟩ := h
    subst h1; subst h2
    exact ⟨groupedEvol_refl [], fun t ht => Or.inl ht⟩
  | cons p rest ih =>
    obtain ⟨integrated_hash, records⟩ := p
    intro trajs counter trajs' grouped' counter' h
    rw [crGo] at h
    by_cases hrec : records = []
    · rw [if_pos hrec] at h
      cases hrest : crGo config detectors rest trajs counter with
      | none =>
        rw [hrest] at h
        exact Option.noConfusion h
      | some trip =>
        obtain ⟨ts, rest', c'⟩ := trip
        rw [hrest] at h
        simp only [Option.some.injEq, Prod.mk.injEq] at h
        obtain ⟨h1, h2, h3⟩ := h
        subst h1; subst h2
        obtain ⟨hG, hT⟩ := ih trajs counter ts rest' c' hrest
        exact ⟨groupedEvol_cons integrated_hash (storeEvol_refl records) hG, hT⟩
    · rw [if_neg hrec] at h
      cases hcg : clusterOneGroup records
          (integrated_hash ++ "_cluster" ++
            toString (counterGet (counterBump counter integrated_hash) integrated_hash))
          config with
      | none =>
        simp only [hcg] at h
        exact Option.noConfusion h
      | some pr =>
        obtain ⟨result, records'⟩ := pr
        simp only [hcg] at h
        have hone := clusterOneGroup_spec records _ config result records' hcg
        cases result with
        | none =>
          simp only at h
          cases hrest : crGo config detectors rest trajs
              (counterBump counter integrated_hash) with
          | none =>
            rw [hrest] at h
            exact Option.noConfusion h
          | some trip =>
            obtain ⟨ts, rest', c'⟩ := trip
            rw [hrest] at h
            simp only [Option.some.injEq, Prod.mk.injEq] at h
            obtain ⟨h1, h2, h3⟩ := h
            subst h1; subst h2
            obtain ⟨hG, hT⟩ := ih trajs _ ts rest' c' hrest
            exact ⟨groupedEvol_cons integrated_hash hone.1 hG, hT⟩
        | some pr2 =>
          obtain ⟨cluster_recs, route_sequence⟩ := pr2
          simp only at h
          by_cases hlen : 2 ≤ route_sequence.length
          · rw [if_pos hlen] at h
            cases hrest : crGo config detectors rest
                (trajs ++
                  [{ trajectory_id := "est_traj_" ++ toString (trajs.length + 1)
                     cluster_ids := [integrated_hash ++ "_cluster" ++
                       toString (counterGet (counterBump counter integrated_hash)
                         integrated_hash)]
                     route := String.join route_sequence
                     stays := createEstimatedStays cluster_recs detectors
                     route_seq := route_sequence }])
                (counterBump counter integrated_hash) with
            | none =>
              rw [hrest] at h
              exact Option.noConfusion h
            | some trip =>
              obtain ⟨ts, rest', c'⟩ := trip
              rw [hrest] at h
              simp only [Option.some.injEq, Prod.mk.injEq] at h
              obtain ⟨h1, h2, h3⟩ := h
              subst h1; subst h2
              obtain ⟨hG, hT⟩ := ih _ _ ts rest' c' hrest
              refine ⟨groupedEvol_cons integrated_hash hone.1 hG, fun t ht => ?_⟩
              rcases hT t ht with hmem | hprop
              · rcases List.mem_append.mp hmem with hmem | hmem
                · exact Or.inl hmem
                · rw [List.mem_singleton] at hmem
                  subst hmem
                  exact Or.inr ⟨hone.2 cluster_recs route_sequence rfl, rfl, hlen⟩
              · exact Or.inr hprop
          · rw [if_neg hlen] at h
            cases hrest : crGo config detectors rest trajs
                (counterBump counter integrated_hash) with
            | none =>
              rw [hrest] at h
              exact Option.noConfusion h
            | some trip =>
              obtain ⟨ts, rest', c'⟩ := trip
              rw [hrest] at h
              simp only [Option.some.injEq, Prod.mk.injEq] at h
              obtain ⟨h1, h2, h3⟩ := h
              subst h1; subst h2
              obtain ⟨hG, hT⟩ := ih trajs _ ts rest' c' hrest
              exact ⟨groupedEvol_cons integrated_hash hone.1 hG, hT⟩

theorem etGo_spec (detectors : List (String × Detector))
    (walker_speed impossible_factor : ℚ) (allow_long_stays : Bool) (fuel : ℕ) :
    ∀ (grouped : List (String × List DetectionRecord)) (counter : List (String × ℕ))
      (acc trajs' : List EstimatedTrajectory)
      (grouped' : List (String × List DetectionRecord)),
    etGo detectors walker_speed impossible_factor allow_long_stays fuel grouped
      counter acc = some (trajs', grouped') →
    GroupedEvol grouped grouped' ∧
    (∀ t ∈ trajs', t ∈ acc ∨
      (List.Chain' (· ≠ ·) t.route_seq ∧ t.route = String.join t.route_seq ∧
        2 ≤ t.route_seq.length)) := by
  induction fuel with
  | zero =>
    intro grouped counter acc trajs' grouped' h
    simp only [etGo, Option.some.injEq, Prod.mk.injEq] at h
    obtain ⟨h1, h2⟩ := h
    subst h1; subst h2
    exact ⟨groupedEvol_refl grouped, fun t ht => Or.inl ht⟩
  | succ fuel ih =>
    intro grouped counter acc trajs' grouped' h
    rw [etGo] at h
    cases hcr : clusterRecords grouped detectors walker_speed impossible_factor
        allow_long_stays counter with
    | none => simp [hcr] at h
    | some trip =>
      obtain ⟨trajectories, grouped1, counter1⟩ := trip
      simp only [hcr] at h
      unfold clusterRecords at hcr
      obtain ⟨hG1, hT1⟩ := crGo_spec _ detectors grouped [] counter
        trajectories grouped1 counter1 hcr
      have hT1' : ∀ t ∈ trajectories,
          List.Chain' (· ≠ ·) t.route_seq ∧ t.route = String.join t.route_seq ∧
            2 ≤ t.route_seq.length := by
        intro t ht
        rcases hT1 t ht with hmem | hprop
        · cases hmem
        · exact hprop
      by_cases hz : (countJudged grouped1 : ℤ) - (countJudged grouped : ℤ) = 0
      · rw [if_pos hz] at h
        simp only [Option.some.injEq, Prod.mk.injEq] at h
        obtain ⟨h1, h2⟩ := h
        subst h1; subst h2
        refine ⟨hG1, fun t ht => ?_⟩
        rcases List.mem_append.mp ht with hmem | hmem
        · exact Or.inl hmem
        · exact Or.inr (hT1' t hmem)
      · rw [if_neg hz] at h
        obtain ⟨hG2, hT2⟩ := ih grouped1 counter1 (acc ++ trajectories) trajs' grouped' h
        refine ⟨groupedEvol_trans hG1 hG2, fun t ht => ?_⟩
        rcases hT2 t ht with hmem | hprop
        · rcases List.mem_append.mp hmem with hmem | hmem
          · exact Or.inl hmem
          · exact Or.inr (hT1' t hmem)
        · exact Or.inr hprop

/-- C2: after the multi-pass driver finishes (without raising), every
detection record of every group is either exactly the input record
(in particular still unjudged if it started unjudged) or is an input record
that was unjudged and was claimed exactly once — marked judged with a single
cluster id.  A record that was already judged is never modified, so no record
is ever accepted into two different clusters: every accepting path only
applies to records with `is_judged = false` and immediately sets
`is_judged := true`. -/
theorem claim_C2_partition_invariant
    (grouped_records : List (String × List DetectionRecord))
    (detectors : List (String × Detector)) (walker_speed impossible_factor : ℚ)
    (allow_long_stays : Bool) (max_passes : ℕ)
    (trajs : List EstimatedTrajectory)
    (grouped' : List (String × List DetectionRecord))
    (h : estimateTrajectories grouped_records detectors walker_speed
      impossible_factor allow_long_stays max_passes = some (trajs, grouped')) :
    GroupedEvol grouped_records grouped' ∧
    ∀ k p, grouped_records.get? k = some p →
      ∃ p', grouped'.get? k = some p' ∧ p'.1 = p.1 ∧
        ∀ i r, p.2.get? i = some r →
          ∃ r', p'.2.get? i = some r' ∧
            (r' = r ∨ (r.is_judged = false ∧ ∃ c, r' = markJudged r c)) := by
  unfold estimateTrajectories at h
  have hspec := etGo_spec detectors walker_speed impossible_factor allow_long_stays
    max_passes grouped_records [] [] trajs grouped' h
  refine ⟨hspec.1, fun k p hp => ?_⟩
  obtain ⟨p', hp', hk, hs⟩ := hspec.1.2 k p hp
  exact ⟨p', hp', hk, fun i r hr => hs.2 i r hr⟩

/-- Record at detector A, t = 0, sequence number `s0` (spec §8 scenario 3). -/
def c4r0 (s0 : ℤ) : DetectionRecord := mkRec 0 "A" s0

/-- Record at detector B, t = 50, sequence number `s1` (spec §8 scenario 3). -/
def c4r50 (s1 : ℤ) : DetectionRecord := mkRec 50 "B" s1

/-- Record at detector B, t = 200, sequence number `s2` (spec §8 scenario 3). -/
def c4r200 (s2 : ℤ) : DetectionRecord := mkRec 200 "B" s2

/-- The single trajectory the engine emits on spec §8 scenario 3: route "AB",
built from the t = 0 A record and the t = 200 B record. -/
def c4traj : EstimatedTrajectory :=
  { trajectory_id := "est_traj_1", cluster_ids := ["g_cluster1"], route := "AB",
    stays := [{ detector_id := "A", first_detection := 0, last_detection := 0,
                estimated_duration_seconds := 0, num_detections := 1 },
              { detector_id := "B", first_detection := 200, last_detection := 200,
                estimated_duration_seconds := 0, num_detections := 1 }],
    route_seq := ["A", "B"] }

/-- Scenario-3 group store after pass 1: records 1 and 3 claimed by
"g_cluster1", the t = 50 B record still unjudged. -/
def c4judged1 (s0 s1 s2 : ℤ) : List DetectionRecord :=
  [markJudged (c4r0 s0) "g_cluster1", c4r50 s1, markJudged (c4r200 s2) "g_cluster1"]

/-- Scenario-3 group store after pass 2: the t = 50 B record has been seeded
into the single-detector cluster "g_cluster2" (later discarded) and marked
judged; no record remains unjudged. -/
def c4judged2 (s0 s1 s2 : ℤ) : List DetectionRecord :=
  [markJudged (c4r0 s0) "g_cluster1", markJudged (c4r50 s1) "g_cluster2",
   markJudged (c4r200 s2) "g_cluster1"]


theorem fsGo_step_none (config : ClusteringConfig) (fuel : ℕ)
    (store : List DetectionRecord) (s : ClusterState) (idx : ℕ)
    (hget : store.get? idx = none) :
    fsGo config (fuel + 1) store s idx = some (none, store, s) := by
  simp only [fsGo, hget]

theorem fsGo_step_skip (config : ClusteringConfig) (fuel : ℕ)
    (store : List DetectionRecord) (s : ClusterState) (idx : ℕ)
    (scan_record : DetectionRecord) (hget : store.get? idx = some scan_record)
    (hev : evaluateScanRecord s scan_record config = some ForwardSearchAction.SKIP) :
    fsGo config (fuel + 1) store s idx = fsGo config fuel store s (idx + 1) := by
  simp only [fsGo, hget, hev]

theorem fsGo_step_add (config : ClusteringConfig) (fuel : ℕ)
    (store : List DetectionRecord) (s : ClusterState) (idx : ℕ)
    (scan_record : DetectionRecord) (hget : store.get? idx = some scan_record)
    (hev : evaluateScanRecord s scan_record config =
      some ForwardSearchAction.ADD_AND_CONTINUE) :
    fsGo config (fuel + 1) store s idx =
      fsGo config fuel (store.set idx (markJudged scan_record s.cluster_id))
        (s.add_record scan_record false) (idx + 1) := by
  simp only [fsGo, hget, hev]

theorem fsGo_step_found (config : ClusteringConfig) (fuel : ℕ)
    (store : List DetectionRecord) (s : ClusterState) (idx : ℕ)
    (scan_record : DetectionRecord) (hget : store.get? idx = some scan_record)
    (hev : evaluateScanRecord s scan_record config = some ForwardSearchAction.FOUND) :
    fsGo config (fuel + 1) store s idx = some (some idx, store, s) := by
  simp only [fsGo, hget, hev]

theorem cogGo_step_none (config : ClusteringConfig) (fuel : ℕ)
    (store : List DetectionRecord) (s : ClusterState) (idx : ℕ)
    (hget : store.get? idx = none) :
    cogGo config (fuel + 1) store s idx = some (store, s) := by
  simp only [cogGo, hget]

theorem cogGo_step_judged (config : ClusteringConfig) (fuel : ℕ)
    (store : List DetectionRecord) (s : ClusterState) (idx : ℕ)
    (candidate : DetectionRecord) (hget : store.get? idx = some candidate)
    (hj : candidate.is_judged = true) :
    cogGo config (fuel + 1) store s idx = cogGo config fuel store s (idx + 1) := by
  simp only [cogGo, hget, hj, if_true]

theorem cogGo_step_stay (config : ClusteringConfig) (fuel : ℕ)
    (store : List DetectionRecord) (s : ClusterState) (idx : ℕ)
    (candidate : DetectionRecord) (hget : store.get? idx = some candidate)
    (hj : candidate.is_judged = false)
    (hjud : judgeCandidateRecord s candidate config = some RecordAction.ADD_AS_STAY) :
    cogGo config (fuel + 1) store s idx =
      cogGo config fuel (store.set idx (markJudged candidate s.cluster_id))
        (s.add_record candidate false) (idx + 1) := by
  simp only [cogGo, hget, hj, Bool.false_eq_true, if_false, hjud]

theorem cogGo_step_move (config : ClusteringConfig) (fuel : ℕ)
    (store : List DetectionRecord) (s : ClusterState) (idx : ℕ)
    (candidate : DetectionRecord) (hget : store.get? idx = some candidate)
    (hj : candidate.is_judged = false)
    (hjud : judgeCandidateRecord s candidate config = some RecordAction.ADD_AS_MOVE) :
    cogGo config (fuel + 1) store s idx =
      cogGo config fuel (store.set idx (markJudged candidate s.cluster_id))
        (s.add_record candidate true) (idx + 1) := by
  simp only [cogGo, hget, hj, Bool.false_eq_true, if_false, hjud]

theorem cogGo_step_fs_found (config : ClusteringConfig) (fuel : ℕ)
    (store : List DetectionRecord) (s : ClusterState) (idx : ℕ)
    (candidate : DetectionRecord) (found_idx : ℕ)
    (store' : List DetectionRecord) (s' : ClusterState)
    (found_record : DetectionRecord)
    (hget : store.get? idx = some candidate)
    (hj : candidate.is_judged = false)
    (hjud : judgeCandidateRecord s candidate config = some RecordAction.FORWARD_SEARCH)
    (hfs : forwardSearch store s idx config = some (some found_idx, store', s'))
    (hfget : store'.get? found_idx = some found_record) :
    cogGo config (fuel + 1) store s idx =
      cogGo config fuel (store'.set found_idx (markJudged found_record s'.cluster_id))
        (s'.add_record found_record true) (found_idx + 1) := by
  simp only [cogGo, hget, hj, Bool.false_eq_true, if_false, hjud, hfs, hfget]

theorem cogGo_step_fs_none (config : ClusteringConfig) (fuel : ℕ)
    (store : List DetectionRecord) (s : ClusterState) (idx : ℕ)
    (candidate : DetectionRecord) (store' : List DetectionRecord) (s' : ClusterState)
    (hget : store.get? idx = some candidate)
    (hj : candidate.is_judged = false)
    (hjud : judgeCandidateRecord s candidate config = some RecordAction.FORWARD_SEARCH)
    (hfs : forwardSearch store s idx config = some (none, store', s')) :
    cogGo config (fuel + 1) store s idx = some (store', s') := by
  simp only [cogGo, hget, hj, Bool.false_eq_true, if_false, hjud, hfs]

theorem clusterOneGroup_eq (store : List DetectionRecord) (cluster_id : String)
    (config : ClusteringConfig) (first_record : DetectionRecord)
    (store' : List DetectionRecord) (s' : ClusterState)
    (hget : store.get? (store.findIdx (fun r => !r.is_judged)) = some first_record)
    (hcog : cogGo config (store.length - (store.findIdx (fun r => !r.is_judged) + 1))
      (store.set (store.findIdx (fun r => !r.is_judged)) (markJudged first_record cluster_id))
      (ClusterState.add_record
        { cluster_id := cluster_id, cluster_records := [], route_sequence := [],
          prev_record := first_record } first_record true)
      (store.findIdx (fun r => !r.is_judged) + 1) = some (store', s')) :
    clusterOneGroup store cluster_id config =
      some (some (s'.cluster_records, s'.route_sequence), store') := by
  unfold clusterOneGroup
  simp only [hget, hcog]

theorem clusterOneGroup_exhausted (store : List DetectionRecord) (cluster_id : String)
    (config : ClusteringConfig)
    (hget : store.get? (store.findIdx (fun r => !r.is_judged)) = none) :
    clusterOneGroup store cluster_id config = some (none, store) := by
  unfold clusterOneGroup
  simp only [hget]

theorem crGo_step_traj (config : ClusteringConfig) (detectors : List (String × Detector))
    (integrated_hash : String) (records : List DetectionRecord)
    (rest : List (String × List DetectionRecord)) (trajectories : List EstimatedTrajectory)
    (counter : List (String × ℕ)) (cluster_recs : List DetectionRecord)
    (route_sequence : List String) (records' : List DetectionRecord)
    (ts : List EstimatedTrajectory) (rest' : List (String × List DetectionRecord))
    (c' : List (String × ℕ))
    (hne : ¬ records = [])
    (hone : clusterOneGroup records
      (integrated_hash ++ "_cluster" ++
        toString (counterGet (counterBump counter integrated_hash) integrated_hash))
      config = some (some (cluster_recs, route_sequence), records'))
    (hlen : 2 ≤ route_sequence.length)
    (hrest : crGo config detectors rest
      (trajectories ++
        [{ trajectory_id := "est_traj_" ++ toString (trajectories.length + 1)
           cluster_ids := [integrated_hash ++ "_cluster" ++
             toString (counterGet (counterBump counter integrated_hash) integrated_hash)]
           route := String.join route_sequence
           stays := createEstimatedStays cluster_recs detectors
           route_seq := route_sequence }])
      (counterBump counter integrated_hash) = some (ts, rest', c')) :
    crGo config detectors ((integrated_hash, records) :: rest) trajectories counter =
      some (ts, (integrated_hash, records') :: rest', c') := by
  simp only [crGo, hne, if_false, hone, hlen, if_true, hrest]

theorem crGo_step_short (config : ClusteringConfig) (detectors : List (String × Detector))
    (integrated_hash : String) (records : List DetectionRecord)
    (rest : List (String × List DetectionRecord)) (trajectories : List EstimatedTrajectory)
    (counter : List (String × ℕ)) (cluster_recs : List DetectionRecord)
    (route_sequence : List String) (records' : List DetectionRecord)
    (ts : List EstimatedTrajectory) (rest' : List (String × List DetectionRecord))
    (c' : List (String × ℕ))
    (hne : ¬ records = [])
    (hone : clusterOneGroup records
      (integrated_hash ++ "_cluster" ++
        toString (counterGet (counterBump counter integrated_hash) integrated_hash))
      config = some (some (cluster_recs, route_sequence), records'))
    (hlen : ¬ 2 ≤ route_sequence.length)
    (hrest : crGo config detectors rest trajectories
      (counterBump counter integrated_hash) = some (ts, rest', c')) :
    crGo config detectors ((integrated_hash, records) :: rest) trajectories counter =
      some (ts, (integrated_hash, records') :: rest', c') := by
  simp only [crGo, hne, if_false, hone, hlen, hrest]

theorem crGo_step_none (config : ClusteringConfig) (detectors : List (String × Detector))
    (integrated_hash : String) (records : List DetectionRecord)
    (rest : List (String × List DetectionRecord)) (trajectories : List EstimatedTrajectory)
    (counter : List (String × ℕ))
    (ts : List EstimatedTrajectory) (rest' : List (String × List DetectionRecord))
    (c' : List (String × ℕ))
    (hne : ¬ records = [])
    (hone : clusterOneGroup records
      (integrated_hash ++ "_cluster" ++
        toString (counterGet (counterBump counter integrated_hash) integrated_hash))
      config = some (none, records))
    (hrest : crGo config detectors rest trajectories
      (counterBump counter integrated_hash) = some (ts, rest', c')) :
    crGo config detectors ((integrated_hash, records) :: rest) trajectories counter =
      some (ts, (integrated_hash, records) :: rest', c') := by
  simp only [crGo, hne, if_false, hone, hrest]

theorem etGo_step_stop (detectors : List (String × Detector))
    (walker_speed impossible_factor : ℚ) (allow_long_stays : Bool) (fuel : ℕ)
    (grouped : List (String × List DetectionRecord)) (counter : List (String × ℕ))
    (all_trajectories trajectories : List EstimatedTrajectory)
    (grouped' : List (String × List DetectionRecord)) (counter' : List (String × ℕ))
    (hcr : clusterRecords grouped detectors walker_speed impossible_factor
      allow_long_stays counter = some (trajectories, grouped', counter'))
    (hz : (countJudged grouped' : ℤ) - (countJudged grouped : ℤ) = 0) :
    etGo detectors walker_speed impossible_factor allow_long_stays (fuel + 1)
      grouped counter all_trajectories =
    some (all_trajectories ++ trajectories, grouped') := by
  simp only [etGo, hcr, hz, if_true]

theorem etGo_step_go (detectors : List (String × Detector))
    (walker_speed impossible_factor : ℚ) (allow_long_stays : Bool) (fuel : ℕ)
    (grouped : List (String × List DetectionRecord)) (counter : List (String × ℕ))
    (all_trajectories trajectories : List EstimatedTrajectory)
    (grouped' : List (String × List DetectionRecord)) (counter' : List (String × ℕ))
    (hcr : clusterRecords grouped detectors walker_speed impossible_factor
      allow_long_stays counter = some (trajectories, grouped', counter'))
    (hz : ¬ (countJudged grouped' : ℤ) - (countJudged grouped : ℤ) = 0) :
    etGo detectors walker_speed impossible_factor allow_long_stays (fuel + 1)
      grouped counter all_trajectories =
    etGo detectors walker_speed impossible_factor allow_long_stays fuel
      grouped' counter' (all_trajectories ++ trajectories) := by
  simp only [etGo, hcr, hz, if_false]

theorem crGo_nil (config : ClusteringConfig) (detectors : List (String × Detector))
    (trajectories : List EstimatedTrajectory) (counter : List (String × ℕ)) :
    crGo config detectors [] trajectories counter = some (trajectories, [], counter) := rfl

theorem cogGo_zero (config : ClusteringConfig) (store : List DetectionRecord)
    (s : ClusterState) (idx : ℕ) :
    cogGo config 0 store s idx = some (store, s) := rfl

/-- Cluster state of "g_cluster1" right after seeding with the t = 0 A record. -/
def c4state1 (s0 : ℤ) : ClusterState :=
  { cluster_id := "g_cluster1"
    cluster_records := [markJudged (c4r0 s0) "g_cluster1"]
    route_sequence := ["A"]
    prev_record := markJudged (c4r0 s0) "g_cluster1" }

/-- Cluster state of "g_cluster1" after the forward-search bridge accepted the
t = 200 B record as a move. -/
def c4state2 (s0 s2 : ℤ) : ClusterState :=
  { cluster_id := "g_cluster1"
    cluster_records := [markJudged (c4r0 s0) "g_cluster1", markJudged (c4r200 s2) "g_cluster1"]
    route_sequence := ["A", "B"]
    prev_record := markJudged (c4r200 s2) "g_cluster1" }

theorem c4_ev50 (s0 s1 : ℤ) :
    evaluateScanRecord (c4state1 s0) (c4r50 s1) cfgAB = some ForwardSearchAction.SKIP := by
  by_cases hseq : (64 : ℤ) < |s1 - s0|
  all_goals
    simp +decide [evaluateScanRecord, is_sequence_anomaly, impossibleMove,
      lookupDetector, dist2, detA, detB, regAB, mkRec, markJudged, MAX_STAY_DURATION,
      cfgAB, c4r0, c4r50, c4state1, List.find?, hseq]

theorem c4_ev200 (s0 s2 : ℤ) :
    evaluateScanRecord (c4state1 s0) (c4r200 s2) cfgAB = some ForwardSearchAction.FOUND := by
  simp +decide [evaluateScanRecord, is_sequence_anomaly, impossibleMove,
    lookupDetector, dist2, detA, detB, regAB, mkRec, markJudged, MAX_STAY_DURATION,
    cfgAB, c4r0, c4r200, c4state1, List.find?]

theorem c4_hj50 (s0 s1 : ℤ) :
    judgeCandidateRecord (c4state1 s0) (c4r50 s1) cfgAB =
      some RecordAction.FORWARD_SEARCH := by
  simp +decide [judgeCandidateRecord, impossibleMove, lookupDetector, dist2, detA,
    detB, regAB, mkRec, markJudged, MAX_STAY_DURATION, cfgAB, c4r0, c4r50, c4state1,
    List.find?]

theorem c4_fs (s0 s1 s2 : ℤ) :
    forwardSearch [markJudged (c4r0 s0) "g_cluster1", c4r50 s1, c4r200 s2]
      (c4state1 s0) 1 cfgAB =
    some (some 2, [markJudged (c4r0 s0) "g_cluster1", c4r50 s1, c4r200 s2],
      c4state1 s0) :=
  (fsGo_step_skip cfgAB 1 [markJudged (c4r0 s0) "g_cluster1", c4r50 s1, c4r200 s2]
      (c4state1 s0) 1 (c4r50 s1) rfl (c4_ev50 s0 s1)).trans
    (fsGo_step_found cfgAB 0 [markJudged (c4r0 s0) "g_cluster1", c4r50 s1, c4r200 s2]
      (c4state1 s0) 2 (c4r200 s2) rfl (c4_ev200 s0 s2))

theorem c4_cog (s0 s1 s2 : ℤ) :
    cogGo cfgAB 2 [markJudged (c4r0 s0) "g_cluster1", c4r50 s1, c4r200 s2]
      (c4state1 s0) 1 =
    some (c4judged1 s0 s1 s2, c4state2 s0 s2) :=
  (cogGo_step_fs_found cfgAB 1
    [markJudged (c4r0 s0) "g_cluster1", c4r50 s1, c4r200 s2] (c4state1 s0) 1
    (c4r50 s1) 2 [markJudged (c4r0 s0) "g_cluster1", c4r50 s1, c4r200 s2]
    (c4state1 s0) (c4r200 s2) rfl rfl
    (c4_hj50 s0 s1) (c4_fs s0 s1 s2) rfl).trans
  (cogGo_step_none cfgAB 0 (c4judged1 s0 s1 s2) (c4state2 s0 s2) 3 rfl)

theorem c4_one (s0 s1 s2 : ℤ) :
    clusterOneGroup [c4r0 s0, c4r50 s1, c4r200 s2] "g_cluster1" cfgAB =
      some (some ((c4state2 s0 s2).cluster_records, (c4state2 s0 s2).route_sequence),
        c4judged1 s0 s1 s2) :=
  clusterOneGroup_eq _ _ _ (c4r0 s0) _ _ rfl (c4_cog s0 s1 s2)

theorem c4_stays (s0 s2 : ℤ) :
    createEstimatedStays
      [markJudged (c4r0 s0) "g_cluster1", markJudged (c4r200 s2) "g_cluster1"]
      regAB = c4traj.stays := by
  simp +decide [createEstimatedStays, firstOccKeys, minTsList, markJudged, c4r0,
    c4r200, mkRec, c4traj, List.insertionSort, List.orderedInsert]

theorem c4_pass1 (s0 s1 s2 : ℤ) :
    crGo cfgAB regAB [("g", [c4r0 s0, c4r50 s1, c4r200 s2])] [] [] =
      some ([c4traj], [("g", c4judged1 s0 s1 s2)], [("g", 1)]) := by
  refine (crGo_step_traj cfgAB regAB "g" [c4r0 s0, c4r50 s1, c4r200 s2] [] [] []
    (c4state2 s0 s2).cluster_records (c4state2 s0 s2).route_sequence
    (c4judged1 s0 s1 s2) _ _ _
    (by simp) (c4_one s0 s1 s2) (by simp [c4state2]) (crGo_nil cfgAB regAB _ _)).trans ?_
  simp +decide [c4_stays s0 s2, c4traj, counterBump, counterGet, c4state2]

/-- Cluster state of "g_cluster2" after seeding with the t = 50 B record in
the second pass. -/
def c4state3 (s1 : ℤ) : ClusterState :=
  { cluster_id := "g_cluster2"
    cluster_records := [markJudged (c4r50 s1) "g_cluster2"]
    route_sequence := ["B"]
    prev_record := markJudged (c4r50 s1) "g_cluster2" }

theorem c4_cog2 (s0 s1 s2 : ℤ) :
    cogGo cfgAB 1 (c4judged2 s0 s1 s2) (c4state3 s1) 2 =
      some (c4judged2 s0 s1 s2, c4state3 s1) :=
  (cogGo_step_judged cfgAB 0 (c4judged2 s0 s1 s2) (c4state3 s1) 2
    (markJudged (c4r200 s2) "g_cluster1") rfl rfl).trans
  (cogGo_zero cfgAB (c4judged2 s0 s1 s2) (c4state3 s1) 3)

theorem c4_one2 (s0 s1 s2 : ℤ) :
    clusterOneGroup (c4judged1 s0 s1 s2) "g_cluster2" cfgAB =
      some (some ((c4state3 s1).cluster_records, (c4state3 s1).route_sequence),
        c4judged2 s0 s1 s2) :=
  clusterOneGroup_eq _ _ _ (c4r50 s1) _ _ rfl (c4_cog2 s0 s1 s2)

theorem c4_pass2 (s0 s1 s2 : ℤ) :
    crGo cfgAB regAB [("g", c4judged1 s0 s1 s2)] [] [("g", 1)] =
      some ([], [("g", c4judged2 s0 s1 s2)], [("g", 2)]) := by
  refine (crGo_step_short cfgAB regAB "g" (c4judged1 s0 s1 s2) [] [] [("g", 1)]
    (c4state3 s1).cluster_records (c4state3 s1).route_sequence
    (c4judged2 s0 s1 s2) _ _ _
    (by simp [c4judged1]) (c4_one2 s0 s1 s2) (by simp [c4state3])
    (crGo_nil cfgAB regAB _ _)).trans ?_
  simp +decide [counterBump, counterGet]

theorem c4_pass3 (s0 s1 s2 : ℤ) :
    crGo cfgAB regAB [("g", c4judged2 s0 s1 s2)] [] [("g", 2)] =
      some ([], [("g", c4judged2 s0 s1 s2)], [("g", 3)]) := by
  refine (crGo_step_none cfgAB regAB "g" (c4judged2 s0 s1 s2) [] [] [("g", 2)] _ _ _
    (by simp [c4judged2])
    (clusterOneGroup_exhausted (c4judged2 s0 s1 s2) "g_cluster2" cfgAB rfl)
    (crGo_nil cfgAB regAB _ _)).trans ?_
  simp +decide [counterBump, counterGet]

/-- Full symbolic run of spec §8 scenario 3, for every choice of sequence
numbers: the engine emits the single "AB" trajectory, and the final store is
`c4judged2` — the t = 50 B record ends up judged (claimed by the discarded
single-detector cluster "g_cluster2"), not unjudged. -/
theorem c4_run (s0 s1 s2 : ℤ) :
    estimateTrajectories [("g", [c4r0 s0, c4r50 s1, c4r200 s2])] regAB (7/5) (4/5)
      false 10 =
    some ([c4traj], [("g", c4judged2 s0 s1 s2)]) :=
  (etGo_step_go regAB (7/5) (4/5) false 9
    [("g", [c4r0 s0, c4r50 s1, c4r200 s2])] [] [] [c4traj]
    [("g", c4judged1 s0 s1 s2)] [("g", 1)] (c4_pass1 s0 s1 s2)
    (by simp +decide [countJudged, c4judged1, c4r0, c4r50, c4r200, mkRec,
      markJudged])).trans
  ((etGo_step_go regAB (7/5) (4/5) false 8
    [("g", c4judged1 s0 s1 s2)] [("g", 1)] ([] ++ [c4traj]) []
    [("g", c4judged2 s0 s1 s2)] [("g", 2)] (c4_pass2 s0 s1 s2)
    (by simp +decide [countJudged, c4judged1, c4judged2, c4r0, c4r50, c4r200, mkRec,
      markJudged])).trans
  (etGo_step_stop regAB (7/5) (4/5) false 7
    [("g", c4judged2 s0 s1 s2)] [("g", 2)] (([] ++ [c4traj]) ++ []) []
    [("g", c4judged2 s0 s1 s2)] [("g", 3)] (c4_pass3 s0 s1 s2)
    (by simp [countJudged])))

/-- Witness for C2: the partition invariant instantiated on the spec §8
scenario-3 run (sequence numbers 0), whose result is computed by `c4_run`. -/
theorem claim_C2_witness :
    GroupedEvol [("g", [c4r0 0, c4r50 0, c4r200 0])] [("g", c4judged2 0 0 0)] ∧
    ∀ k p, ([("g", [c4r0 0, c4r50 0, c4r200 0])] :
        List (String × List DetectionRecord)).get? k = some p →
      ∃ p', ([("g", c4judged2 0 0 0)] :
          List (String × List DetectionRecord)).get? k = some p' ∧ p'.1 = p.1 ∧
        ∀ i r, p.2.get? i = some r →
          ∃ r', p'.2.get? i = some r' ∧
            (r' = r ∨ (r.is_judged = false ∧ ∃ c, r' = markJudged r c)) :=
  claim_C2_partition_invariant [("g", [c4r0 0, c4r50 0, c4r200 0])] regAB (7/5) (4/5)
    false 10 [c4traj] [("g", c4judged2 0 0 0)] (c4_run 0 0 0)

/-- C4 counterexample: on spec §8 scenario 3 (sequence numbers 0) the run does
emit the single "AB" trajectory built from the t = 0 A and t = 200 B records,
but the t = 50 B record does NOT remain unjudged: the final store has zero
unjudged records (the spec says residual = 1), because a later pass seeds the
t = 50 record into the discarded single-detector cluster "g_cluster2" and
marks it judged. -/
theorem claim_C4_counterexample :
    estimateTrajectories [("g", [c4r0 0, c4r50 0, c4r200 0])] regAB (7/5) (4/5)
      false 10 = some ([c4traj], [("g", c4judged2 0 0 0)]) ∧
    ((c4judged2 0 0 0).filter (fun r => !r.is_judged)).length = 0 ∧
    (c4judged2 0 0 0).get? 1 = some (markJudged (c4r50 0) "g_cluster2") :=
  ⟨c4_run 0 0 0, by decide, rfl⟩

/-- C4 (amended): on spec §8 scenario 3, for any sequence numbers, the engine
emits exactly one trajectory with route "AB" built from the t = 0 A record
and the t = 200 B record — but the t = 50 B record ends the run judged, as a
member of the discarded single-detector cluster "g_cluster2", and the
residual unjudged count is 0, not 1. -/
theorem claim_C4_scenario3_run (s0 s1 s2 : ℤ) :
    estimateTrajectories [("g", [c4r0 s0, c4r50 s1, c4r200 s2])] regAB (7/5) (4/5)
      false 10 = some ([c4traj], [("g", c4judged2 s0 s1 s2)]) ∧
    (c4judged2 s0 s1 s2).get? 1 = some (markJudged (c4r50 s1) "g_cluster2") ∧
    ((c4judged2 s0 s1 s2).filter (fun r => !r.is_judged)).length = 0 :=
  ⟨c4_run s0 s1 s2, rfl,
    by simp [c4judged2, markJudged, c4r0, c4r50, c4r200, mkRec, List.filter]⟩

/-- C10: an input on which a record ends the multi-pass run judged with a
nonempty cluster id although it appears in no emitted trajectory: in spec §8
scenario 3 the t = 50 B record is accepted into "g_cluster2", whose
single-detector route is discarded before trajectory emission, and no later
pass reconsiders it — the only emitted trajectory carries cluster id
"g_cluster1". -/
theorem claim_C10_judged_but_unemitted :
    estimateTrajectories [("g", [c4r0 0, c4r50 0, c4r200 0])] regAB (7/5) (4/5)
      false 10 = some ([c4traj], [("g", c4judged2 0 0 0)]) ∧
    ∃ r, (c4judged2 0 0 0).get? 1 = some r ∧ r.is_judged = true ∧
      r.cluster_id = "g_cluster2" ∧
      ∀ t ∈ [c4traj], r.cluster_id ∉ t.cluster_ids :=
  ⟨c4_run 0 0 0, markJudged (c4r50 0) "g_cluster2", rfl, rfl, rfl, by decide⟩

/-- Records of the revisit scenario: A at t = 0, B at t = 100, A again at
t = 200; every consecutive move is feasible (100 s ≥ the 80 s threshold). -/
def c3recs : List DetectionRecord := [mkRec 0 "A" 0, mkRec 100 "B" 0, mkRec 200 "A" 0]

/-- The trajectory the engine emits on the revisit scenario: route "ABA",
detector A appearing twice (non-consecutively). -/
def c3traj : EstimatedTrajectory :=
  { trajectory_id := "est_traj_1", cluster_ids := ["g_cluster1"], route := "ABA",
    stays := [{ detector_id := "A", first_detection := 0, last_detection := 200,
                estimated_duration_seconds := 200, num_detections := 2 },
              { detector_id := "B", first_detection := 100, last_detection := 100,
                estimated_duration_seconds := 0, num_detections := 1 }],
    route_seq := ["A", "B", "A"] }

/-- Final store of the revisit scenario: all three records judged into
"g_cluster1". -/
def c3judged : List DetectionRecord :=
  [markJudged (mkRec 0 "A" 0) "g_cluster1", markJudged (mkRec 100 "B" 0) "g_cluster1",
   markJudged (mkRec 200 "A" 0) "g_cluster1"]

set_option maxHeartbeats 4000000 in
theorem c3_run :
    estimateTrajectories [("g", c3recs)] regAB (7/5) (4/5) false 10 =
      some ([c3traj], [("g", c3judged)]) := by decide

/-- C3 counterexample: the main clustering loop has no loop avoidance (only
forward search does), so the A, B, A records at t = 0, 100, 200 produce an
emitted trajectory with route "ABA": detector A appears twice in the route,
refuting "no detector identifier appears twice anywhere in the route". -/
theorem claim_C3_counterexample :
    estimateTrajectories [("g", c3recs)] regAB (7/5) (4/5) false 10 =
      some ([c3traj], [("g", c3judged)]) ∧
    c3traj.route = "ABA" ∧ ¬ c3traj.route_seq.Nodup :=
  ⟨c3_run, rfl, by decide⟩

/-- C3 (amended): for every input and configuration, every emitted
trajectory's route has no two EQUAL CONSECUTIVE detectors (and the route
string is the concatenation of the route sequence, of length at least 2);
the consecutive-distinctness half of the claim holds, the global
no-repetition half does not (see the counterexample). -/
theorem claim_C3_route_wellformed
    (grouped_records : List (String × List DetectionRecord))
    (detectors : List (String × Detector)) (walker_speed impossible_factor : ℚ)
    (allow_long_stays : Bool) (max_passes : ℕ) (trajs : List EstimatedTrajectory)
    (grouped' : List (String × List DetectionRecord))
    (h : estimateTrajectories grouped_records detectors walker_speed
      impossible_factor allow_long_stays max_passes = some (trajs, grouped')) :
    ∀ t ∈ trajs, List.Chain' (· ≠ ·) t.route_seq ∧
      t.route = String.join t.route_seq ∧ 2 ≤ t.route_seq.length := by
  unfold estimateTrajectories at h
  have hspec := etGo_spec detectors walker_speed impossible_factor allow_long_stays
    max_passes grouped_records [] [] trajs grouped' h
  intro t ht
  rcases hspec.2 t ht with hmem | hp
  · cases hmem
  · exact hp

/-- Witness for C3 (amended): the "ABA" trajectory of the revisit scenario
has pairwise-distinct consecutive detectors, its route joins its route
sequence, and it visits at least two detectors. -/
theorem claim_C3_witness :
    List.Chain' (· ≠ ·) c3traj.route_seq ∧
      c3traj.route = String.join c3traj.route_seq ∧ 2 ≤ c3traj.route_seq.length :=
  claim_C3_route_wellformed [("g", c3recs)] regAB (7/5) (4/5) false 10 [c3traj]
    [("g", c3judged)] c3_run c3traj (by simp)

/-- The trajectory emitted when the engine runs with walker_speed = 0. -/
def c6traj : EstimatedTrajectory :=
  { trajectory_id := "est_traj_1", cluster_ids := ["g_cluster1"], route := "AB",
    stays := [{ detector_id := "A", first_detection := 0, last_detection := 0,
                estimated_duration_seconds := 0, num_detections := 1 },
              { detector_id := "B", first_detection := 50, last_detection := 50,
                estimated_duration_seconds := 0, num_detections := 1 }],
    route_seq := ["A", "B"] }

/-- Final store of the speed-0 run: both records judged into "g_cluster1". -/
def c6judged : List DetectionRecord :=
  [markJudged (mkRec 0 "A" 0) "g_cluster1", markJudged (mkRec 50 "B" 0) "g_cluster1"]

set_option maxHeartbeats 4000000 in
/-- C6 counterexample: with walker_speed = 0 the engine does NOT fail fast —
there is no configuration validation anywhere on the path, the run completes
normally and even emits an "AB" trajectory, because `calculate_min_travel_time`
silently returns 0 for non-positive speed and every move becomes feasible. -/
theorem claim_C6_counterexample :
    estimateTrajectories [("g", [mkRec 0 "A" 0, mkRec 50 "B" 0])] regAB 0 (4/5)
      false 10 = some ([c6traj], [("g", c6judged)]) := by decide

/-- C6 (amended): a non-positive walker speed is silently absorbed into the
feasibility arithmetic instead of raising: `calculate_min_travel_time`
returns 0 (the `speed > 0` guard of distance_calculator.py line 45 falls to
the 0.0 default), so no forward-in-time move is ever judged impossible. -/
theorem claim_C6_silent_speed (det1 det2 : Detector) (speed : ℚ) (hs : speed ≤ 0) :
    calculate_min_travel_time det1 det2 speed = 0 ∧
    ∀ t dd factor : ℚ, 0 ≤ t → impossibleMove t dd speed factor = false := by
  constructor
  · unfold calculate_min_travel_time
    rw [if_neg (not_lt.mpr hs)]
  · intro t dd factor ht
    unfold impossibleMove
    rw [if_neg (not_lt.mpr hs)]
    exact decide_eq_false (not_lt.mpr ht)

/-- Witness for C6 (amended): at speed 0, the A-to-B minimum travel time is 0
and the 50-second A-to-B hop is not flagged impossible. -/
theorem claim_C6_witness :
    (0 : ℚ) ≤ 0 ∧ (0 : ℚ) ≤ 50 ∧ calculate_min_travel_time detA detB 0 = 0 ∧
      impossibleMove 50 (dist2 detA detB) 0 (4/5) = false :=
  ⟨le_refl 0, by norm_num, (claim_C6_silent_speed detA detB 0 (le_refl 0)).1,
    (claim_C6_silent_speed detA detB 0 (le_refl 0)).2 50 (dist2 detA detB) (4/5)
      (by norm_num)⟩

/-- C7: on any completed forward search — including one returning no bridge
target (`res = none`) — the cluster id and route are unchanged, and there is
a list `abs` of absorbed same-place records such that the final
cluster_records is the initial one extended by `abs`, the final prev_record
is the last element of `abs` (or the initial prev_record when nothing was
absorbed), and every absorbed record is marked judged with this cluster's id,
sits at the route tail's detector, and is still present in the returned
store; nothing is rolled back. -/
theorem claim_C7_absorption_persists (store : List DetectionRecord) (s : ClusterState)
    (start_idx : ℕ) (config : ClusteringConfig) (res : Option ℕ)
    (store' : List DetectionRecord) (s' : ClusterState)
    (h : forwardSearch store s start_idx config = some (res, store', s')) :
    s'.cluster_id = s.cluster_id ∧
    s'.route_sequence = s.route_sequence ∧
    ∃ abs : List DetectionRecord,
      s'.cluster_records = s.cluster_records ++ abs ∧
      s'.prev_record = abs.foldl (fun _ r => r) s.prev_record ∧
      ∀ r ∈ abs, r.is_judged = true ∧ r.cluster_id = s.cluster_id ∧
        some r.detector_id = s.route_sequence.getLast? ∧
        ∃ j, store'.get? j = some r := by
  have hspec := fsGo_spec config (store.length - start_idx) store s start_idx
    res store' s' h
  exact ⟨hspec.2.1, hspec.2.2.1, hspec.2.2.2.2.1⟩

/-- Detection record seeding the C7 witness cluster. -/
def c7rec0 : DetectionRecord := mkRec 0 "A" 0

/-- C7 witness cluster state: seeded at A, t = 0. -/
def c7state : ClusterState :=
  { cluster_id := "c", cluster_records := [markJudged c7rec0 "c"],
    route_sequence := ["A"], prev_record := markJudged c7rec0 "c" }

/-- C7 witness store: the seed, a same-place record at t = 10, and a B record
at t = 45 that is infeasible from t = 10 (35 s < the 80 s threshold). -/
def c7store : List DetectionRecord :=
  [markJudged c7rec0 "c", mkRec 10 "A" 0, mkRec 45 "B" 0]

/-- C7 witness store after the search: the t = 10 record absorbed and marked. -/
def c7store' : List DetectionRecord :=
  [markJudged c7rec0 "c", markJudged (mkRec 10 "A" 0) "c", mkRec 45 "B" 0]

/-- C7 witness state after the search: the absorbed record appended and now
the prev_record, although the search found no bridge target. -/
def c7state' : ClusterState :=
  { cluster_id := "c",
    cluster_records := [markJudged c7rec0 "c", markJudged (mkRec 10 "A" 0) "c"],
    route_sequence := ["A"], prev_record := markJudged (mkRec 10 "A" 0) "c" }

/-- Witness for C7: a forward search that absorbs the same-place t = 10
record, then fails to find any bridge target and returns none — yet the
absorbed record stays judged in the store and state. -/
theorem claim_C7_witness :
    forwardSearch c7store c7state 1 cfgAB = some (none, c7store', c7state') ∧
    (c7state'.cluster_id = c7state.cluster_id ∧
     c7state'.route_sequence = c7state.route_sequence ∧
     ∃ abs : List DetectionRecord,
       c7state'.cluster_records = c7state.cluster_records ++ abs ∧
       c7state'.prev_record = abs.foldl (fun _ r => r) c7state.prev_record ∧
       ∀ r ∈ abs, r.is_judged = true ∧ r.cluster_id = c7state.cluster_id ∧
         some r.detector_id = c7state.route_sequence.getLast? ∧
         ∃ j, c7store'.get? j = some r) :=
  ⟨by decide,
   claim_C7_absorption_persists c7store c7state 1 cfgAB none c7store' c7state'
     (by decide)⟩
